import Mathlib

/-!
Verification of the multi-backend database connection manager of `au-api`
(`src/server/utils/databases/*`): shallow embedding of the data model
(`interfaces.ts`), the result adapters (`ResultAdapter`), the named-parameter
translation (`convertNamedParams` of the MySQL and PostgreSQL connections),
the per-variant connection state machines, the transaction handles, and the
`DatabaseManager` registry, together with theorems settling the frozen claims.

Conventions of the embedding:
* Native driver values that the TypeScript code only passes around (pool
  handles, native error objects, row payloads, field descriptors) are
  modelled as `Nat`.
* JavaScript `undefined`/absent values are modelled with `Option`.
* Asynchronous methods that can `throw` are modelled as functions returning
  `Except Err α` paired with the successor state; the outcome of each native
  driver call (which is outside this repository) is supplied as an explicit
  environment argument.
-/

/-- `DatabaseType` enum from `interfaces.ts`. -/
inductive DatabaseType where
  | mssql
  | mysql
  | postgresql
deriving DecidableEq, Repr

/-- `DatabaseError` from `interfaces.ts`: message, database name, backend
type, and the optional original native error.  Note: the class carries no
machine-readable error-kind field. -/
structure DatabaseError where
  message : String
  database : String
  dbtype : DatabaseType
  originalError : Option Nat
deriving DecidableEq, Repr

/-- An error escaping one of the manager's or connections' operations: either
a `DatabaseError` thrown by this repository's code, or a native driver error
propagated unwrapped. -/
inductive Err where
  | dbError (e : DatabaseError)
  | native (code : Nat)
deriving DecidableEq, Repr

/-- Whether an escaped error is a `DatabaseError` (as opposed to an unwrapped
native driver error). -/
def Err.isDb : Err → Bool
  | .dbError _ => true
  | .native _ => false

/-- Generic `QueryResult` from `interfaces.ts`. -/
structure QueryResultM (T : Type) where
  rows : List T
  rowCount : Nat
  fields : Option (List Nat)
deriving DecidableEq, Repr

/-- JavaScript `a || b` on an optional number: falls through to `b` when `a`
is `undefined` or the falsy `0`. -/
def jsOrNat (a : Option Nat) (b : Nat) : Nat :=
  match a with
  | some n => if n = 0 then b else n
  | none => b

/-- Shape of an `mssql` driver `IResult`: `recordset` may be absent (no
rowset), `rowsAffected` is an optional array of per-statement counts. -/
structure MSSQLResult (T : Type) where
  recordset : Option (List T)
  rowsAffected : Option (List Nat)
deriving DecidableEq, Repr

/-- Shape of a `pg` driver result: `rows` and `rowCount` may each be absent. -/
structure PGResult (T : Type) where
  rows : Option (List T)
  rowCount : Option Nat
  fields : Option (List Nat)
deriving DecidableEq, Repr

/-- `ResultAdapter.fromMSSQL`:
`rows = result.recordset || []`,
`rowCount = result.rowsAffected?.[0] || result.recordset?.length || 0`,
`fields = undefined`. -/
def ResultAdapter.fromMSSQL {T : Type} (result : MSSQLResult T) : QueryResultM T :=
  { rows := result.recordset.getD []
    rowCount :=
      jsOrNat (result.rowsAffected.bind List.head?)
        (jsOrNat (result.recordset.map List.length) 0)
    fields := none }

/-- `ResultAdapter.fromMySQL`: the driver hands back `rows` that may or may
not be a JavaScript array (`none` models a non-array value such as an
`OkPacket`); `rows = Array.isArray(rows) ? rows : []`, `rowCount` likewise. -/
def ResultAdapter.fromMySQL {T : Type} (rows : Option (List T))
    (fields : Option (List Nat) := none) : QueryResultM T :=
  { rows := rows.getD []
    rowCount := (rows.map List.length).getD 0
    fields := fields }

/-- `ResultAdapter.fromPostgreSQL`:
`rows = result.rows || []`, `rowCount = result.rowCount || 0`,
`fields = result.fields`. -/
def ResultAdapter.fromPostgreSQL {T : Type} (result : PGResult T) : QueryResultM T :=
  { rows := result.rows.getD []
    rowCount := jsOrNat result.rowCount 0
    fields := result.fields }

example : (ResultAdapter.fromMSSQL (⟨some [10, 20], some [3]⟩ : MSSQLResult Nat)).rowCount = 3 := by
  decide

example : (ResultAdapter.fromMSSQL (⟨none, some [5]⟩ : MSSQLResult Nat)).rowCount = 5 := by
  decide

example : (ResultAdapter.fromPostgreSQL (⟨some [7], some 1, none⟩ : PGResult Nat)).rowCount = 1 := by
  decide

/-! ## ParameterTranslator (`convertNamedParams` of mysql.ts and postgres.ts)

The SQL template is a `List Char`; a parameter mapping is an association list
(JavaScript object), keys in insertion order, values modelled as `Nat`.
The source builds, for each key, the regex ``:key\b`` and does a global
`String.replace`, pushing the key's value once per match. -/

/-- A regex word character (`\w`): letter, digit or underscore. -/
def isWordChar (c : Char) : Bool :=
  c.isAlphanum || c == '_'

/-- `\b` immediately after a matched occurrence whose final character is
`last`: a boundary holds iff the word-ness of `last` differs from that of the
following character (end of input counts as non-word). -/
def boundaryOk (last : Char) : List Char → Bool
  | [] => isWordChar last
  | c :: _ => isWordChar last != isWordChar c

/-- Whether the regex ``:key\b`` matches at the start of `s`. -/
def matchAt (key : List Char) : List Char → Bool
  | [] => false
  | c :: rest =>
    c == ':' && key.isPrefixOf rest && boundaryOk (key.getLastD ':') (rest.drop key.length)

/-- Global regex replacement of ``:key\b`` in `s` (left to right,
non-overlapping, exactly as JavaScript `String.replace` with a `g` regex):
the `j`-th match overall (counting from `i`) is replaced by `rep j`, and the
number of matches is returned (the source pushes the key's value once per
match). -/
def scanReplace (key : List Char) (rep : Nat → List Char) (i : Nat) (s : List Char) :
    List Char × Nat :=
  match s with
  | [] => ([], 0)
  | c :: rest =>
    if matchAt key (c :: rest) then
      let out := scanReplace key rep (i + 1) (rest.drop key.length)
      (rep i ++ out.1, out.2 + 1)
    else
      let out := scanReplace key rep i rest
      (c :: out.1, out.2)
termination_by s.length
decreasing_by
  · simp only [List.length_cons, List.length_drop]
    omega
  · simp

/-- Number of matches of ``:key\b`` in `s` (same scan as `scanReplace`,
independent of the replacement text because the scan never re-examines its
own output). -/
def countMatches (key : List Char) (s : List Char) : Nat :=
  match s with
  | [] => 0
  | c :: rest =>
    if matchAt key (c :: rest) then
      countMatches key (rest.drop key.length) + 1
    else
      countMatches key rest
termination_by s.length
decreasing_by
  · simp only [List.length_cons, List.length_drop]
    omega
  · simp

/-- Decimal digit character of `n % 10`. -/
def digitChar (n : Nat) : Char :=
  match n % 10 with
  | 0 => '0'
  | 1 => '1'
  | 2 => '2'
  | 3 => '3'
  | 4 => '4'
  | 5 => '5'
  | 6 => '6'
  | 7 => '7'
  | 8 => '8'
  | _ => '9'

/-- Decimal digits of `n`, most significant first. -/
def natDigits (n : Nat) : List Char :=
  if _h : n < 10 then [digitChar n]
  else natDigits (n / 10) ++ [digitChar (n % 10)]
termination_by n
decreasing_by
  exact Nat.div_lt_self (by omega) (by omega)

/-- Replacement text for the MySQL translator: every occurrence becomes `?`. -/
def mysqlRep : Nat → List Char := fun _ => ['?']

/-- Replacement text for the PostgreSQL translator: the match handled while
`paramIndex = j` becomes `$j` (the counter starts at 1 and increments once
per replacement, across all keys). -/
def pgRep : Nat → List Char := fun j => '$' :: natDigits j

/-- `Object.keys(params).sort((a, b) => b.length - a.length)`: the parameter
names, longest first (stable on equal lengths). -/
def sortKeysByLenDesc {V : Type} (params : List (List Char × V)) : List (List Char × V) :=
  params.mergeSort (fun a b => Nat.ble b.1.length a.1.length)

/-- Shared loop of both translators: fold over the sorted keys, each step
replacing that key's occurrences and appending its value once per
occurrence; `i` is the running global replacement counter (used only by the
PostgreSQL replacement text). -/
def convertLoop {V : Type} (rep : Nat → List Char) (i : Nat) (sql : List Char)
    (vals : List V) : List (List Char × V) → List Char × List V
  | [] => (sql, vals)
  | (key, v) :: rest =>
    let out := scanReplace key rep i sql
    convertLoop rep (i + out.2) out.1 (vals ++ List.replicate out.2 v) rest

/-- `MySQLConnection.convertNamedParams` (mysql.ts, lines 254-270): rewrite
every ``:name`` occurrence to `?`, longest names first, pushing the mapped
value once per occurrence. -/
def mysqlConvertNamedParams {V : Type} (sql : List Char) (params : List (List Char × V)) :
    List Char × List V :=
  convertLoop mysqlRep 0 sql [] (sortKeysByLenDesc params)

/-- `PostgreSQLConnection.convertNamedParams` (postgres part of mssql.ts,
lines 493-510): rewrite every ``:name`` occurrence to `$1`, `$2`, ... in
replacement order, longest names first, pushing the mapped value once per
occurrence. -/
def pgConvertNamedParams {V : Type} (sql : List Char) (params : List (List Char × V)) :
    List Char × List V :=
  convertLoop pgRep 1 sql [] (sortKeysByLenDesc params)

unseal scanReplace countMatches natDigits List.merge List.mergeSort

example :
    mysqlConvertNamedParams "select :identifier, :id".toList
      [("id".toList, (5 : Nat)), ("identifier".toList, 7)] =
      ("select ?, ?".toList, [7, 5]) := by
  decide

example :
    pgConvertNamedParams "select :identifier, :id".toList
      [("id".toList, (5 : Nat)), ("identifier".toList, 7)] =
      ("select $1, $2".toList, [7, 5]) := by
  decide

example :
    mysqlConvertNamedParams "select :id".toList
      [("id".toList, (5 : Nat)), ("dead".toList, 7)] =
      ("select ?".toList, [5]) := by
  decide

/-! ## BackendConnection state machines

Each connection class owns two mutable fields, `pool` (native pool handle,
`null` when absent) and `connected`, plus the immutable `name`.  Native
driver calls are modelled through explicit environment records.  SQL text and
parameters do not influence the connection state (parameter conversion is a
pure function, modelled above), so they are elided from the state-level
operations. -/

/-- Mutable state of one backend connection object. -/
structure ConnState where
  name : String
  pool : Option Nat
  connected : Bool
deriving DecidableEq, Repr

/-- Outcomes of the native calls made during `connect`: the handle of the
freshly built pool, whether the setup/liveness probe succeeds, and the native
error otherwise. -/
structure ConnectEnv where
  freshPool : Nat
  ok : Bool
  errCode : Nat
deriving Repr

/-- Outcome of the native call made during `disconnect` (`pool.end()` /
`pool.close()`). -/
structure DisconnectEnv where
  ok : Bool
  errCode : Nat
deriving Repr

/-- Outcomes of the native calls of a `query`/`execute`: the lazy `connect`'s
environment plus the native statement result. -/
structure MSSQLQueryEnv where
  conn : ConnectEnv
  result : Except Nat (MSSQLResult Nat)
deriving Repr

/-- Outcomes of the native calls of a MySQL `query`/`execute`. -/
structure MySQLQueryEnv where
  conn : ConnectEnv
  result : Except Nat (Option (List Nat) × Option (List Nat))
deriving Repr

/-- Outcomes of the native calls of a PostgreSQL `query`/`execute`. -/
structure PGQueryEnv where
  conn : ConnectEnv
  result : Except Nat (PGResult Nat)
deriving Repr

/-- `MSSQLConnection.connect` (mssql.ts, lines 56-75): no-op when already
connected with a pool; otherwise assigns `this.pool = new ConnectionPool(...)`
first, then awaits the pool's own connect, marking `connected = true` on
success and throwing a wrapping `DatabaseError` on failure (the assigned pool
handle is left behind, `connected` untouched). -/
def mssqlConnect (env : ConnectEnv) (s : ConnState) : Except Err Unit × ConnState :=
  if s.connected && s.pool.isSome then
    (.ok (), s)
  else
    let s1 : ConnState := { s with pool := some env.freshPool }
    if env.ok then
      (.ok (), { s1 with connected := true })
    else
      (.error (.dbError
        ⟨"Failed to connect to database: " ++ s.name, s.name, .mssql, some env.errCode⟩), s1)

/-- `MySQLConnection.connect` (mysql.ts, lines 49-73): same state skeleton;
the probe is `getConnection`/`ping`/`release` on the created pool. -/
def mysqlConnect (env : ConnectEnv) (s : ConnState) : Except Err Unit × ConnState :=
  if s.connected && s.pool.isSome then
    (.ok (), s)
  else
    let s1 : ConnState := { s with pool := some env.freshPool }
    if env.ok then
      (.ok (), { s1 with connected := true })
    else
      (.error (.dbError
        ⟨"Failed to connect to database: " ++ s.name, s.name, .mysql, some env.errCode⟩), s1)

/-- `PostgreSQLConnection.connect` (postgres part of mssql.ts, lines 285-314):
same state skeleton; the probe is `connect`/`SELECT 1`/`release`; the
`pool.on` error-logging hook has no state effect. -/
def pgConnect (env : ConnectEnv) (s : ConnState) : Except Err Unit × ConnState :=
  if s.connected && s.pool.isSome then
    (.ok (), s)
  else
    let s1 : ConnState := { s with pool := some env.freshPool }
    if env.ok then
      (.ok (), { s1 with connected := true })
    else
      (.error (.dbError
        ⟨"Failed to connect to database: " ++ s.name, s.name, .postgresql, some env.errCode⟩), s1)

/-- `MSSQLConnection.disconnect` (mssql.ts, lines 80-99): no-op without a
pool; on `pool.close()` failure the handle and flag are left untouched and a
wrapping `DatabaseError` is thrown. -/
def mssqlDisconnect (env : DisconnectEnv) (s : ConnState) : Except Err Unit × ConnState :=
  if s.pool.isNone then
    (.ok (), s)
  else if env.ok then
    (.ok (), { s with pool := none, connected := false })
  else
    (.error (.dbError
      ⟨"Failed to disconnect from database: " ++ s.name, s.name, .mssql, some env.errCode⟩), s)

/-- `MySQLConnection.disconnect` (mysql.ts, lines 78-97). -/
def mysqlDisconnect (env : DisconnectEnv) (s : ConnState) : Except Err Unit × ConnState :=
  if s.pool.isNone then
    (.ok (), s)
  else if env.ok then
    (.ok (), { s with pool := none, connected := false })
  else
    (.error (.dbError
      ⟨"Failed to disconnect from database: " ++ s.name, s.name, .mysql, some env.errCode⟩), s)

/-- `PostgreSQLConnection.disconnect` (postgres part of mssql.ts, lines
319-338). -/
def pgDisconnect (env : DisconnectEnv) (s : ConnState) : Except Err Unit × ConnState :=
  if s.pool.isNone then
    (.ok (), s)
  else if env.ok then
    (.ok (), { s with pool := none, connected := false })
  else
    (.error (.dbError
      ⟨"Failed to disconnect from database: " ++ s.name, s.name, .postgresql, some env.errCode⟩), s)

/-- `await`-style sequencing after a lazy connect: propagate a connect
failure together with its state, otherwise run the body on the
post-connect state. -/
def afterConnect {A : Type} (c : Except Err Unit × ConnState)
    (body : ConnState → Except Err A × ConnState) : Except Err A × ConnState :=
  match c.1 with
  | .error e => (.error e, c.2)
  | .ok _ => body c.2

/-- The same sequencing inside `testConnection`'s catch-all: a connect
failure is swallowed into `false`. -/
def afterConnectCaught (c : Except Err Unit × ConnState)
    (body : ConnState → Bool × ConnState) : Bool × ConnState :=
  match c.1 with
  | .error _ => (false, c.2)
  | .ok _ => body c.2

/-- `MSSQLConnection.query` (mssql.ts, lines 104-130): lazily connects when
`!this.pool || !this.connected`, then runs the request; a native failure is
rethrown as a wrapping `DatabaseError` and the state is left untouched. -/
def mssqlQuery (env : MSSQLQueryEnv) (s : ConnState) :
    Except Err (QueryResultM Nat) × ConnState :=
  afterConnect
    (if s.pool.isSome && s.connected then (.ok (), s) else mssqlConnect env.conn s)
    (fun s1 =>
      match env.result with
      | .ok r => (.ok (ResultAdapter.fromMSSQL r), s1)
      | .error n =>
        (.error (.dbError
          ⟨"Query failed on database: " ++ s.name, s.name, .mssql, some n⟩), s1))

/-- `MySQLConnection.query` (mysql.ts, lines 102-129): lazily connects, pipes
the template and mapping through `convertNamedParams` (pure, no state
effect), then executes; a native failure is rethrown as a wrapping
`DatabaseError` with the state untouched. -/
def mysqlQuery (env : MySQLQueryEnv) (s : ConnState) :
    Except Err (QueryResultM Nat) × ConnState :=
  afterConnect
    (if s.pool.isSome && s.connected then (.ok (), s) else mysqlConnect env.conn s)
    (fun s1 =>
      match env.result with
      | .ok r => (.ok (ResultAdapter.fromMySQL r.1 r.2), s1)
      | .error n =>
        (.error (.dbError
          ⟨"Query failed on database: " ++ s.name, s.name, .mysql, some n⟩), s1))

/-- `PostgreSQLConnection.query` (postgres part of mssql.ts, lines 343-370). -/
def pgQuery (env : PGQueryEnv) (s : ConnState) :
    Except Err (QueryResultM Nat) × ConnState :=
  afterConnect
    (if s.pool.isSome && s.connected then (.ok (), s) else pgConnect env.conn s)
    (fun s1 =>
      match env.result with
      | .ok r => (.ok (ResultAdapter.fromPostgreSQL r), s1)
      | .error n =>
        (.error (.dbError
          ⟨"Query failed on database: " ++ s.name, s.name, .postgresql, some n⟩), s1))

/-- `MSSQLConnection.execute` (mssql.ts, lines 135-161): same state behaviour
as `query`, message `Stored procedure failed ...`. -/
def mssqlExecute (env : MSSQLQueryEnv) (s : ConnState) :
    Except Err (QueryResultM Nat) × ConnState :=
  afterConnect
    (if s.pool.isSome && s.connected then (.ok (), s) else mssqlConnect env.conn s)
    (fun s1 =>
      match env.result with
      | .ok r => (.ok (ResultAdapter.fromMSSQL r), s1)
      | .error n =>
        (.error (.dbError
          ⟨"Stored procedure failed on database: " ++ s.name, s.name, .mssql, some n⟩), s1))

/-- `MySQLConnection.execute` (mysql.ts, lines 134-156). -/
def mysqlExecute (env : MySQLQueryEnv) (s : ConnState) :
    Except Err (QueryResultM Nat) × ConnState :=
  afterConnect
    (if s.pool.isSome && s.connected then (.ok (), s) else mysqlConnect env.conn s)
    (fun s1 =>
      match env.result with
      | .ok r => (.ok (ResultAdapter.fromMySQL r.1 r.2), s1)
      | .error n =>
        (.error (.dbError
          ⟨"Stored procedure failed on database: " ++ s.name, s.name, .mysql, some n⟩), s1))

/-- `PostgreSQLConnection.execute` (postgres part of mssql.ts, lines
375-396), message `Function call failed ...`. -/
def pgExecute (env : PGQueryEnv) (s : ConnState) :
    Except Err (QueryResultM Nat) × ConnState :=
  afterConnect
    (if s.pool.isSome && s.connected then (.ok (), s) else pgConnect env.conn s)
    (fun s1 =>
      match env.result with
      | .ok r => (.ok (ResultAdapter.fromPostgreSQL r), s1)
      | .error n =>
        (.error (.dbError
          ⟨"Function call failed on database: " ++ s.name, s.name, .postgresql, some n⟩), s1))

/-! ## Transactions

A transaction handle owns one dedicated session/connection checked out from
the pool; `released` records whether it has been returned.  The outcome of
the native commit/rollback/statement is an explicit argument (`none` =
success, `some code` = the native error thrown). -/

/-- State of one transaction handle's dedicated session. -/
structure TxState where
  name : String
  released : Bool
deriving DecidableEq, Repr

/-- Outcomes of the native calls of `beginTransaction`: lazy connect plus the
session acquisition / `BEGIN`. -/
structure BeginTxEnv where
  conn : ConnectEnv
  beginOk : Bool
  errCode : Nat
deriving Repr

/-- `MSSQLConnection.beginTransaction` (mssql.ts, lines 166-194): lazily
connects, then `new sql.Transaction(pool)` / `transaction.begin()` with no
try/catch of its own — an acquisition failure propagates the native error
unwrapped. -/
def mssqlBeginTransaction (env : BeginTxEnv) (s : ConnState) : Except Err TxState × ConnState :=
  afterConnect
    (if s.pool.isSome && s.connected then (.ok (), s) else mssqlConnect env.conn s)
    (fun s1 =>
      if env.beginOk then (.ok ⟨s.name, false⟩, s1)
      else (.error (.native env.errCode), s1))

/-- `MySQLConnection.beginTransaction` (mysql.ts, lines 161-208): lazily
connects, then `pool.getConnection()` / `connection.beginTransaction()` with
no try/catch of its own. -/
def mysqlBeginTransaction (env : BeginTxEnv) (s : ConnState) : Except Err TxState × ConnState :=
  afterConnect
    (if s.pool.isSome && s.connected then (.ok (), s) else mysqlConnect env.conn s)
    (fun s1 =>
      if env.beginOk then (.ok ⟨s.name, false⟩, s1)
      else (.error (.native env.errCode), s1))

/-- `PostgreSQLConnection.beginTransaction` (postgres part of mssql.ts, lines
401-448): lazily connects, then `pool.connect()` / `client.query('BEGIN')`
with no try/catch of its own. -/
def pgBeginTransaction (env : BeginTxEnv) (s : ConnState) : Except Err TxState × ConnState :=
  afterConnect
    (if s.pool.isSome && s.connected then (.ok (), s) else pgConnect env.conn s)
    (fun s1 =>
      if env.beginOk then (.ok ⟨s.name, false⟩, s1)
      else (.error (.native env.errCode), s1))

/-- The MySQL transaction handle's `commit`:
`try { await connection.commit() } finally { connection.release() }` — the
dedicated session is released on both exit paths, and a native commit error
propagates unwrapped. -/
def mysqlTxCommit (commitErr : Option Nat) (t : TxState) : Except Err Unit × TxState :=
  match commitErr with
  | none => (.ok (), { t with released := true })
  | some n => (.error (.native n), { t with released := true })

/-- The MySQL transaction handle's `rollback`:
`try { await connection.rollback() } finally { connection.release() }`. -/
def mysqlTxRollback (rollbackErr : Option Nat) (t : TxState) : Except Err Unit × TxState :=
  match rollbackErr with
  | none => (.ok (), { t with released := true })
  | some n => (.error (.native n), { t with released := true })

/-- The PostgreSQL transaction handle's `commit`:
`try { await client.query('COMMIT') } finally { client.release() }`. -/
def pgTxCommit (commitErr : Option Nat) (t : TxState) : Except Err Unit × TxState :=
  match commitErr with
  | none => (.ok (), { t with released := true })
  | some n => (.error (.native n), { t with released := true })

/-- The PostgreSQL transaction handle's `rollback`:
`try { await client.query('ROLLBACK') } finally { client.release() }`. -/
def pgTxRollback (rollbackErr : Option Nat) (t : TxState) : Except Err Unit × TxState :=
  match rollbackErr with
  | none => (.ok (), { t with released := true })
  | some n => (.error (.native n), { t with released := true })

/-- The MSSQL transaction handle's `commit`: the source delegates with
`await transaction.commit()` and adds no handling of its own; the `mssql`
driver's `Transaction.commit` returns the dedicated connection to the pool on
completion, whether the commit succeeded or failed (driver contract, the
driver is outside this repository), and a commit error propagates unwrapped. -/
def mssqlTxCommit (commitErr : Option Nat) (t : TxState) : Except Err Unit × TxState :=
  match commitErr with
  | none => (.ok (), { t with released := true })
  | some n => (.error (.native n), { t with released := true })

/-- The MSSQL transaction handle's `rollback`: `await transaction.rollback()`,
with the session release performed inside the driver on both exit paths. -/
def mssqlTxRollback (rollbackErr : Option Nat) (t : TxState) : Except Err Unit × TxState :=
  match rollbackErr with
  | none => (.ok (), { t with released := true })
  | some n => (.error (.native n), { t with released := true })

/-- The MSSQL transaction handle's `query` (mssql.ts, lines 175-186): runs a
request on the transaction with no try/catch — a native statement error
propagates unwrapped (not rewrapped as a `DatabaseError`). -/
def mssqlTxQuery (res : Except Nat (MSSQLResult Nat)) (t : TxState) :
    Except Err (QueryResultM Nat) × TxState :=
  match res with
  | .ok r => (.ok (ResultAdapter.fromMSSQL r), t)
  | .error n => (.error (.native n), t)

/-- The MySQL transaction handle's `query` (mysql.ts, lines 170-192):
converts named parameters (pure), executes on the dedicated session, and
rewraps a native failure as `DatabaseError`. -/
def mysqlTxQuery (res : Except Nat (Option (List Nat) × Option (List Nat))) (t : TxState) :
    Except Err (QueryResultM Nat) × TxState :=
  match res with
  | .ok r => (.ok (ResultAdapter.fromMySQL r.1 r.2), t)
  | .error n =>
    (.error (.dbError
      ⟨"Transaction query failed on database: " ++ t.name, t.name, .mysql, some n⟩), t)

/-- The PostgreSQL transaction handle's `query` (postgres part of mssql.ts,
lines 410-432): rewraps a native failure as `DatabaseError`. -/
def pgTxQuery (res : Except Nat (PGResult Nat)) (t : TxState) :
    Except Err (QueryResultM Nat) × TxState :=
  match res with
  | .ok r => (.ok (ResultAdapter.fromPostgreSQL r), t)
  | .error n =>
    (.error (.dbError
      ⟨"Transaction query failed on database: " ++ t.name, t.name, .postgresql, some n⟩), t)

/-- `MSSQLConnection.testConnection` (mssql.ts, lines 199-211): lazily
connects, runs `this.query('SELECT 1 as test')`, returns whether a row came
back; any error is swallowed into `false`. -/
def mssqlTestConnection (env : MSSQLQueryEnv) (s : ConnState) : Bool × ConnState :=
  afterConnectCaught
    (if s.pool.isSome && s.connected then (.ok (), s) else mssqlConnect env.conn s)
    (fun s1 =>
      match env.result with
      | .ok r => (decide (0 < (ResultAdapter.fromMSSQL r).rows.length), s1)
      | .error _ => (false, s1))

/-- `MySQLConnection.testConnection` (mysql.ts, lines 213-227): lazily
connects, then `getConnection`/`ping`/`release`, returning `true`; any error
is swallowed into `false`. -/
def mysqlTestConnection (env : ConnectEnv) (pingOk : Bool) (s : ConnState) : Bool × ConnState :=
  afterConnectCaught
    (if s.pool.isSome && s.connected then (.ok (), s) else mysqlConnect env s)
    (fun s1 =>
      (pingOk, s1))

/-- `PostgreSQLConnection.testConnection` (postgres part of mssql.ts, lines
453-465): lazily connects, runs `pool.query('SELECT 1 as test')` directly,
returns whether a row came back; any error is swallowed into `false`. -/
def pgTestConnection (env : PGQueryEnv) (s : ConnState) : Bool × ConnState :=
  afterConnectCaught
    (if s.pool.isSome && s.connected then (.ok (), s) else pgConnect env.conn s)
    (fun s1 =>
      match env.result with
      | .ok r => (decide (0 < (ResultAdapter.fromPostgreSQL r).rows.length), s1)
      | .error _ => (false, s1))

/-! ## DatabaseManager (databaseManager.ts)

The registry's two maps (`configs`, `connections`) are association lists;
live connection objects are identified by the `Nat` id handed out at
creation (`nextConn` is the fresh-id source, so two distinct creations never
alias).  `managerGet` additionally returns the list of side effects it
performed, to state "no second pool creation / no network attempt" claims. -/

/-- The fields of `AnyDatabaseConfig` that the manager's control flow reads:
name, backend type and the optional `enabled` flag (connection attributes are
only forwarded to the created connection). -/
structure DbConfig where
  name : String
  dtype : DatabaseType
  enabled : Option Bool
deriving DecidableEq, Repr

/-- Observable side effects of a `managerGet` call. -/
inductive MgrEvent where
  | createdConnection
  | connectAttempt
deriving DecidableEq, Repr

/-- `Map.set`-style association-list update (overwrite if present, append
otherwise). -/
def assocSet {α : Type} (k : String) (v : α) : List (String × α) → List (String × α)
  | [] => [(k, v)]
  | (k1, v1) :: t => if k = k1 then (k, v) :: t else (k1, v1) :: assocSet k v t

/-- Registry state. -/
structure ManagerState where
  configs : List (String × DbConfig)
  connections : List (String × Nat)
  nextConn : Nat
deriving DecidableEq, Repr

/-- The empty registry. -/
def ManagerState.empty : ManagerState := ⟨[], [], 0⟩

/-- `DatabaseManager.register` (databaseManager.ts, lines 59-66): stores or
overwrites the configuration under its name (logging only). -/
def managerRegister (cfg : DbConfig) (s : ManagerState) : ManagerState :=
  { s with configs := assocSet cfg.name cfg s.configs }

/-- `DatabaseManager.get` (databaseManager.ts, lines 71-105): returns the
cached connection if present; otherwise requires a configuration
(`No configuration found`, hardcoded `DatabaseType.MSSQL`), rejects
`enabled === false` (`... is disabled`), then creates the typed connection,
awaits its `connect()` (outcome `env`) and stores it.  The returned event
list records connection-object creations and network connection attempts. -/
def managerGet (env : ConnectEnv) (name : String) (s : ManagerState) :
    Except Err Nat × ManagerState × List MgrEvent :=
  match s.connections.lookup name with
  | some c => (.ok c, s, [])
  | none =>
    match s.configs.lookup name with
    | none =>
      (.error (.dbError
        ⟨"No configuration found for database: " ++ name, name, .mssql, none⟩), s, [])
    | some cfg =>
      if cfg.enabled = some false then
        (.error (.dbError
          ⟨"Database \x27" ++ name ++ "\x27 is disabled", name, cfg.dtype, none⟩), s, [])
      else
        let cid := s.nextConn
        if env.ok then
          (.ok cid,
            { s with connections := assocSet name cid s.connections, nextConn := cid + 1 },
            [.createdConnection, .connectAttempt])
        else
          (.error (.dbError
            ⟨"Failed to connect to database: " ++ name, name, cfg.dtype, some env.errCode⟩),
            { s with nextConn := cid + 1 },
            [.createdConnection, .connectAttempt])

/-- `DatabaseManager.getUnconnected` (databaseManager.ts, lines 110-121):
requires a configuration (`No configuration found`, hardcoded
`DatabaseType.MSSQL`) and creates — without connecting or storing — a fresh
typed connection. -/
def managerGetUnconnected (name : String) (s : ManagerState) :
    Except Err Nat × ManagerState × List MgrEvent :=
  match s.configs.lookup name with
  | none =>
    (.error (.dbError
      ⟨"No configuration found for database: " ++ name, name, .mssql, none⟩), s, [])
  | some _ =>
    (.ok s.nextConn, { s with nextConn := s.nextConn + 1 }, [.createdConnection])

/-! ## Helper lemmas -/

theorem lookup_assocSet {α : Type} (k : String) (v : α) (l : List (String × α)) :
    (assocSet k v l).lookup k = some v := by
  induction l with
  | nil => simp [assocSet, List.lookup]
  | cons hd t ih =>
    obtain ⟨k1, v1⟩ := hd
    by_cases hk : k = k1
    · simp [assocSet, hk, List.lookup]
    · have hbe : (k == k1) = false := beq_eq_false_iff_ne.mpr hk
      simp [assocSet, hk, List.lookup, hbe, ih]

/-! ## Claims -/

/-- C1: for every registered database name, two sequential `DatabaseManager.get`
calls return the same live connection object: whenever a `get` succeeds, a
second `get` on the resulting registry state returns the very same connection
id, leaves the state unchanged, and performs no connection creation and no
connect attempt (empty event list), whatever the second call's environment. -/
theorem c1_managerGet_idempotent (env1 env2 : ConnectEnv) (name : String)
    (s s2 : ManagerState) (c : Nat) (evs : List MgrEvent)
    (h : managerGet env1 name s = (.ok c, s2, evs)) :
    managerGet env2 name s2 = (.ok c, s2, []) := by
  unfold managerGet at h
  split at h
  · next c0 heq =>
    simp only [Prod.mk.injEq, Except.ok.injEq] at h
    obtain ⟨rfl, rfl, rfl⟩ := h
    unfold managerGet
    simp [heq]
  · next heq =>
    split at h
    · simp at h
    · next cfg hcfg =>
      split at h
      · simp at h
      · split at h
        · simp only [Prod.mk.injEq, Except.ok.injEq] at h
          obtain ⟨rfl, rfl, rfl⟩ := h
          unfold managerGet
          simp [lookup_assocSet]
        · simp at h

/-- Witness for C1 at a concrete registry: register `primary`, connect once,
and observe the second `get` reusing the stored connection. -/
theorem c1_witness :
    managerGet ⟨2, false, 9⟩ "primary"
        (managerGet ⟨1, true, 0⟩ "primary"
          (managerRegister ⟨"primary", .mssql, some true⟩ ManagerState.empty)).2.1 =
      (.ok 0,
        (managerGet ⟨1, true, 0⟩ "primary"
          (managerRegister ⟨"primary", .mssql, some true⟩ ManagerState.empty)).2.1, []) :=
  c1_managerGet_idempotent ⟨1, true, 0⟩ ⟨2, false, 9⟩ "primary"
    (managerRegister ⟨"primary", .mssql, some true⟩ ManagerState.empty) _ 0
    [.createdConnection, .connectAttempt] rfl

/-- C3: on each backend variant, `commit` and `rollback` release the
transaction's dedicated session on every exit path — for every outcome of the
underlying native commit/rollback (success or throw), the session is marked
released afterwards. -/
theorem c3_commit_rollback_always_release (e : Option Nat) (t : TxState) :
    (mysqlTxCommit e t).2.released = true ∧
    (mysqlTxRollback e t).2.released = true ∧
    (pgTxCommit e t).2.released = true ∧
    (pgTxRollback e t).2.released = true ∧
    (mssqlTxCommit e t).2.released = true ∧
    (mssqlTxRollback e t).2.released = true := by
  cases e <;>
    simp [mysqlTxCommit, mysqlTxRollback, pgTxCommit, pgTxRollback, mssqlTxCommit,
      mssqlTxRollback]

/-- C5 counterexample: the claim "for every registered configuration with
`enabled = false`, `get` fails with a `Disabled` error" is false on the code:
after `register`(enabled) / `get` / re-`register`(disabled), the configuration
under `secondary` has `enabled = false`, yet `get` returns the cached
connection successfully (and performs no work at all). -/
theorem c5_counterexample :
    ((managerRegister ⟨"secondary", .mysql, some false⟩
        (managerGet ⟨1, true, 0⟩ "secondary"
          (managerRegister ⟨"secondary", .mysql, some true⟩
            ManagerState.empty)).2.1).configs.lookup "secondary" =
      some ⟨"secondary", .mysql, some false⟩) ∧
    (managerGet ⟨2, true, 0⟩ "secondary"
        (managerRegister ⟨"secondary", .mysql, some false⟩
          (managerGet ⟨1, true, 0⟩ "secondary"
            (managerRegister ⟨"secondary", .mysql, some true⟩
              ManagerState.empty)).2.1)).1 = .ok 0 :=
  ⟨rfl, rfl⟩

/-- C5 (amended): for every registered configuration with `enabled = false`,
provided no live connection is currently cached under that name (in
particular always on a name that has never been connected), `get` fails with
the `Disabled` error and neither constructs a backend connection object nor
attempts a network connection (its event list is empty and the registry state
is unchanged). -/
theorem c5_disabled_get_fails (env : ConnectEnv) (name : String) (s : ManagerState)
    (cfg : DbConfig) (hconn : s.connections.lookup name = none)
    (hcfg : s.configs.lookup name = some cfg) (hdis : cfg.enabled = some false) :
    managerGet env name s =
      (.error (.dbError
        ⟨"Database \x27" ++ name ++ "\x27 is disabled", name, cfg.dtype, none⟩), s, []) := by
  unfold managerGet
  simp [hconn, hcfg, hdis]

/-- Witness for C5 (amended) on a freshly registered disabled database. -/
theorem c5_witness :
    managerGet ⟨1, true, 0⟩ "secondary"
        (managerRegister ⟨"secondary", .postgresql, some false⟩ ManagerState.empty) =
      (.error (.dbError
        ⟨"Database \x27secondary\x27 is disabled", "secondary", .postgresql, none⟩),
        managerRegister ⟨"secondary", .postgresql, some false⟩ ManagerState.empty, []) :=
  c5_disabled_get_fails ⟨1, true, 0⟩ "secondary" _ ⟨"secondary", .postgresql, some false⟩
    (by decide) (by decide) (by decide)

/-- C10: when `get` or `getUnconnected` fails because no configuration exists
under the requested name, the thrown `DatabaseError` reports backend type
MSSQL (the hardcoded default), regardless of any actual binding. -/
theorem c10_notConfigured_reports_mssql (env : ConnectEnv) (name : String)
    (s : ManagerState) (hconn : s.connections.lookup name = none)
    (hcfg : s.configs.lookup name = none) :
    (managerGet env name s).1 =
      .error (.dbError
        ⟨"No configuration found for database: " ++ name, name, .mssql, none⟩) ∧
    (managerGetUnconnected name s).1 =
      .error (.dbError
        ⟨"No configuration found for database: " ++ name, name, .mssql, none⟩) := by
  unfold managerGet managerGetUnconnected
  simp [hconn, hcfg]

/-- Witness for C10: an empty registry with a MySQL-flavoured name still
reports MSSQL in the not-configured error. -/
theorem c10_witness :
    (managerGet ⟨1, true, 0⟩ "mysql" ManagerState.empty).1 =
      .error (.dbError
        ⟨"No configuration found for database: mysql", "mysql", .mssql, none⟩) ∧
    (managerGetUnconnected "mysql" ManagerState.empty).1 =
      .error (.dbError
        ⟨"No configuration found for database: mysql", "mysql", .mssql, none⟩) :=
  c10_notConfigured_reports_mssql ⟨1, true, 0⟩ "mysql" ManagerState.empty
    (by decide) (by decide)

/-- C6 counterexample: the invariant "`rowCount` equals `rows.length` except
for statements that return no rowset" fails on `ResultAdapter.fromMSSQL`: a
native result that carries both a rowset and a differing nonzero
`rowsAffected[0]` (e.g. a batch whose first statement affects 3 rows while
the returned recordset has 2) yields `rowCount = 3` with `rows.length = 2`. -/
theorem c6_counterexample :
    (⟨some [10, 20], some [3]⟩ : MSSQLResult Nat).recordset.isSome = true ∧
    (ResultAdapter.fromMSSQL (⟨some [10, 20], some [3]⟩ : MSSQLResult Nat)).rowCount = 3 ∧
    (ResultAdapter.fromMSSQL (⟨some [10, 20], some [3]⟩ : MSSQLResult Nat)).rows.length = 2 ∧
    (ResultAdapter.fromMSSQL (⟨some [10, 20], some [3]⟩ : MSSQLResult Nat)).rowCount ≠
      (ResultAdapter.fromMSSQL (⟨some [10, 20], some [3]⟩ : MSSQLResult Nat)).rows.length := by
  decide

/-- C6 (amended): `rowCount` equals `rows.length` for the MySQL adapter
unconditionally; for the PostgreSQL adapter whenever the native result is
internally consistent (native `rowCount` equals the length of its rowset, as
the driver guarantees for rowset-returning statements), with no-rowset
results reporting the native affected count; and for the MSSQL adapter
whenever `rowsAffected[0]` is absent, zero, or agrees with the rowset length
— when a rowset and a differing nonzero affected count are both present,
`rowCount` is the affected count rather than `rows.length`; for statements
returning no rowset, `rowCount` is the affected count. -/
theorem c6_rowCount_amended {T : Type} (r : MSSQLResult T) (p : PGResult T)
    (mrows : Option (List T)) (f : Option (List Nat)) :
    ((ResultAdapter.fromMySQL mrows f).rowCount =
      (ResultAdapter.fromMySQL mrows f).rows.length) ∧
    (p.rows = none →
      (ResultAdapter.fromPostgreSQL p).rowCount = p.rowCount.getD 0) ∧
    (∀ rs, p.rows = some rs → p.rowCount = some rs.length →
      (ResultAdapter.fromPostgreSQL p).rowCount =
        (ResultAdapter.fromPostgreSQL p).rows.length) ∧
    (r.recordset = none →
      (ResultAdapter.fromMSSQL r).rowCount = (r.rowsAffected.bind List.head?).getD 0) ∧
    (∀ rs, r.recordset = some rs →
      (r.rowsAffected.bind List.head? = none ∨ r.rowsAffected.bind List.head? = some 0 ∨
        r.rowsAffected.bind List.head? = some rs.length) →
      (ResultAdapter.fromMSSQL r).rowCount = (ResultAdapter.fromMSSQL r).rows.length) := by
  refine ⟨?_, ?_, ?_, ?_, ?_⟩
  · cases mrows <;> simp [ResultAdapter.fromMySQL]
  · intro h
    cases hc : p.rowCount <;> simp [ResultAdapter.fromPostgreSQL, jsOrNat, hc]
    omega
  · intro rs h1 h2
    simp only [ResultAdapter.fromPostgreSQL, jsOrNat, h1, h2, Option.getD_some]
    split <;> simp_all
  · intro h
    cases hb : r.rowsAffected.bind List.head? <;>
      simp [ResultAdapter.fromMSSQL, jsOrNat, h, hb]
    omega
  · intro rs h hor
    rcases hor with h0 | h0 | h0 <;>
      simp [ResultAdapter.fromMSSQL, jsOrNat, h, h0] <;>
      first
        | omega
        | (intro h1; simp [h1])

/-- Witness for C6 (amended) on concrete native results of all three shapes. -/
theorem c6_witness :
    ((ResultAdapter.fromMySQL (some [4, 5]) none).rowCount =
      (ResultAdapter.fromMySQL (some [4, 5]) none).rows.length) ∧
    ((⟨none, some 4, none⟩ : PGResult Nat).rows = none →
      (ResultAdapter.fromPostgreSQL (⟨none, some 4, none⟩ : PGResult Nat)).rowCount =
        (some 4).getD 0) ∧
    (∀ rs, (⟨none, some 4, none⟩ : PGResult Nat).rows = some rs →
      (some 4 : Option Nat) = some rs.length →
      (ResultAdapter.fromPostgreSQL (⟨none, some 4, none⟩ : PGResult Nat)).rowCount =
        (ResultAdapter.fromPostgreSQL (⟨none, some 4, none⟩ : PGResult Nat)).rows.length) ∧
    ((⟨some [8], some [1]⟩ : MSSQLResult Nat).recordset = none →
      (ResultAdapter.fromMSSQL (⟨some [8], some [1]⟩ : MSSQLResult Nat)).rowCount =
        ((some [1] : Option (List Nat)).bind List.head?).getD 0) ∧
    (∀ rs, (⟨some [8], some [1]⟩ : MSSQLResult Nat).recordset = some rs →
      ((some [1] : Option (List Nat)).bind List.head? = none ∨
        (some [1] : Option (List Nat)).bind List.head? = some 0 ∨
        (some [1] : Option (List Nat)).bind List.head? = some rs.length) →
      (ResultAdapter.fromMSSQL (⟨some [8], some [1]⟩ : MSSQLResult Nat)).rowCount =
        (ResultAdapter.fromMSSQL (⟨some [8], some [1]⟩ : MSSQLResult Nat)).rows.length) :=
  c6_rowCount_amended ⟨some [8], some [1]⟩ ⟨none, some 4, none⟩ (some [4, 5]) none

/-- C7 counterexample: "absent result set implies `rowCount = 0`" fails on
`ResultAdapter.fromMSSQL`: an UPDATE-style native result with no recordset
and `rowsAffected = [5]` yields `rowCount = 5`. -/
theorem c7_counterexample :
    (⟨none, some [5]⟩ : MSSQLResult Nat).recordset = none ∧
    (ResultAdapter.fromMSSQL (⟨none, some [5]⟩ : MSSQLResult Nat)).rows = [] ∧
    (ResultAdapter.fromMSSQL (⟨none, some [5]⟩ : MSSQLResult Nat)).rowCount = 5 ∧
    (ResultAdapter.fromMSSQL (⟨none, some [5]⟩ : MSSQLResult Nat)).rowCount ≠ 0 := by
  decide

/-- C7 (amended): for every native result whose rowset is absent, each
adapter produces `rows` as the (never-null) empty sequence, and `rowCount`
is 0 unless the native result reports an affected-row count (MSSQL
`rowsAffected[0]`, PostgreSQL native `rowCount`), in which case `rowCount` is
that count. -/
theorem c7_absent_rowset_amended {T : Type} (r : MSSQLResult T) (p : PGResult T)
    (f : Option (List Nat)) :
    (r.recordset = none →
      (ResultAdapter.fromMSSQL r).rows = [] ∧
      (ResultAdapter.fromMSSQL r).rowCount = (r.rowsAffected.bind List.head?).getD 0) ∧
    ((ResultAdapter.fromMySQL (none : Option (List T)) f).rows = [] ∧
      (ResultAdapter.fromMySQL (none : Option (List T)) f).rowCount = 0) ∧
    (p.rows = none →
      (ResultAdapter.fromPostgreSQL p).rows = [] ∧
      (ResultAdapter.fromPostgreSQL p).rowCount = p.rowCount.getD 0) := by
  refine ⟨?_, ?_, ?_⟩
  · intro h
    refine ⟨by simp [ResultAdapter.fromMSSQL, h], ?_⟩
    cases hb : r.rowsAffected.bind List.head? <;>
      simp [ResultAdapter.fromMSSQL, jsOrNat, h, hb]
    omega
  · simp [ResultAdapter.fromMySQL]
  · intro h
    refine ⟨by simp [ResultAdapter.fromPostgreSQL, h], ?_⟩
    cases hc : p.rowCount <;> simp [ResultAdapter.fromPostgreSQL, jsOrNat, hc]
    omega

/-- Witness for C7 (amended) on concrete no-rowset native results. -/
theorem c7_witness :
    ((⟨none, none⟩ : MSSQLResult Nat).recordset = none →
      (ResultAdapter.fromMSSQL (⟨none, none⟩ : MSSQLResult Nat)).rows = [] ∧
      (ResultAdapter.fromMSSQL (⟨none, none⟩ : MSSQLResult Nat)).rowCount =
        ((none : Option (List Nat)).bind List.head?).getD 0) ∧
    ((ResultAdapter.fromMySQL (none : Option (List Nat)) (some [1])).rows = [] ∧
      (ResultAdapter.fromMySQL (none : Option (List Nat)) (some [1])).rowCount = 0) ∧
    ((⟨none, some 2, none⟩ : PGResult Nat).rows = none →
      (ResultAdapter.fromPostgreSQL (⟨none, some 2, none⟩ : PGResult Nat)).rows = [] ∧
      (ResultAdapter.fromPostgreSQL (⟨none, some 2, none⟩ : PGResult Nat)).rowCount =
        (some 2 : Option Nat).getD 0) :=
  c7_absent_rowset_amended ⟨none, none⟩ ⟨none, some 2, none⟩ (some [1])

/-! ### State-threading lemmas for the lazy-connect operations -/

theorem afterConnect_snd {A : Type} (c : Except Err Unit × ConnState)
    (body : ConnState → Except Err A × ConnState) (h : ∀ s1, (body s1).2 = s1) :
    (afterConnect c body).2 = c.2 := by
  unfold afterConnect
  cases hc : c.1 <;> simp [hc, h]

theorem afterConnectCaught_snd (c : Except Err Unit × ConnState)
    (body : ConnState → Bool × ConnState) (h : ∀ s1, (body s1).2 = s1) :
    (afterConnectCaught c body).2 = c.2 := by
  unfold afterConnectCaught
  cases hc : c.1 <;> simp [hc, h]

theorem mssqlConnect_pool_kept (env : ConnectEnv) (s : ConnState) :
    (mssqlConnect env s).2.pool.isSome = true ∨ (mssqlConnect env s).2 = s := by
  unfold mssqlConnect
  split
  · right; rfl
  · split <;> left <;> simp

theorem mysqlConnect_pool_kept (env : ConnectEnv) (s : ConnState) :
    (mysqlConnect env s).2.pool.isSome = true ∨ (mysqlConnect env s).2 = s := by
  unfold mysqlConnect
  split
  · right; rfl
  · split <;> left <;> simp

theorem pgConnect_pool_kept (env : ConnectEnv) (s : ConnState) :
    (pgConnect env s).2.pool.isSome = true ∨ (pgConnect env s).2 = s := by
  unfold pgConnect
  split
  · right; rfl
  · split <;> left <;> simp

theorem mssqlQuery_state (env : MSSQLQueryEnv) (s : ConnState) :
    (mssqlQuery env s).2 =
      (if s.pool.isSome && s.connected then ((.ok (), s) : Except Err Unit × ConnState)
        else mssqlConnect env.conn s).2 :=
  afterConnect_snd _ _ (fun s1 => by cases env.result <;> rfl)

theorem mysqlQuery_state (env : MySQLQueryEnv) (s : ConnState) :
    (mysqlQuery env s).2 =
      (if s.pool.isSome && s.connected then ((.ok (), s) : Except Err Unit × ConnState)
        else mysqlConnect env.conn s).2 :=
  afterConnect_snd _ _ (fun s1 => by cases env.result <;> rfl)

theorem pgQuery_state (env : PGQueryEnv) (s : ConnState) :
    (pgQuery env s).2 =
      (if s.pool.isSome && s.connected then ((.ok (), s) : Except Err Unit × ConnState)
        else pgConnect env.conn s).2 :=
  afterConnect_snd _ _ (fun s1 => by cases env.result <;> rfl)

theorem mssqlExecute_state (env : MSSQLQueryEnv) (s : ConnState) :
    (mssqlExecute env s).2 =
      (if s.pool.isSome && s.connected then ((.ok (), s) : Except Err Unit × ConnState)
        else mssqlConnect env.conn s).2 :=
  afterConnect_snd _ _ (fun s1 => by cases env.result <;> rfl)

theorem mysqlExecute_state (env : MySQLQueryEnv) (s : ConnState) :
    (mysqlExecute env s).2 =
      (if s.pool.isSome && s.connected then ((.ok (), s) : Except Err Unit × ConnState)
        else mysqlConnect env.conn s).2 :=
  afterConnect_snd _ _ (fun s1 => by cases env.result <;> rfl)

theorem pgExecute_state (env : PGQueryEnv) (s : ConnState) :
    (pgExecute env s).2 =
      (if s.pool.isSome && s.connected then ((.ok (), s) : Except Err Unit × ConnState)
        else pgConnect env.conn s).2 :=
  afterConnect_snd _ _ (fun s1 => by cases env.result <;> rfl)

theorem mssqlBeginTransaction_state (env : BeginTxEnv) (s : ConnState) :
    (mssqlBeginTransaction env s).2 =
      (if s.pool.isSome && s.connected then ((.ok (), s) : Except Err Unit × ConnState)
        else mssqlConnect env.conn s).2 :=
  afterConnect_snd _ _ (fun s1 => by cases env.beginOk <;> rfl)

theorem mysqlBeginTransaction_state (env : BeginTxEnv) (s : ConnState) :
    (mysqlBeginTransaction env s).2 =
      (if s.pool.isSome && s.connected then ((.ok (), s) : Except Err Unit × ConnState)
        else mysqlConnect env.conn s).2 :=
  afterConnect_snd _ _ (fun s1 => by cases env.beginOk <;> rfl)

theorem pgBeginTransaction_state (env : BeginTxEnv) (s : ConnState) :
    (pgBeginTransaction env s).2 =
      (if s.pool.isSome && s.connected then ((.ok (), s) : Except Err Unit × ConnState)
        else pgConnect env.conn s).2 :=
  afterConnect_snd _ _ (fun s1 => by cases env.beginOk <;> rfl)

theorem mssqlTestConnection_state (env : MSSQLQueryEnv) (s : ConnState) :
    (mssqlTestConnection env s).2 =
      (if s.pool.isSome && s.connected then ((.ok (), s) : Except Err Unit × ConnState)
        else mssqlConnect env.conn s).2 :=
  afterConnectCaught_snd _ _ (fun s1 => by cases env.result <;> rfl)

theorem mysqlTestConnection_state (env : ConnectEnv) (pingOk : Bool) (s : ConnState) :
    (mysqlTestConnection env pingOk s).2 =
      (if s.pool.isSome && s.connected then ((.ok (), s) : Except Err Unit × ConnState)
        else mysqlConnect env s).2 :=
  afterConnectCaught_snd _ _ (fun _ => rfl)

theorem pgTestConnection_state (env : PGQueryEnv) (s : ConnState) :
    (pgTestConnection env s).2 =
      (if s.pool.isSome && s.connected then ((.ok (), s) : Except Err Unit × ConnState)
        else pgConnect env.conn s).2 :=
  afterConnectCaught_snd _ _ (fun s1 => by cases env.result <;> rfl)

/-- A lazily-connecting operation threaded through the `connect` shortcut
never clears an existing pool handle. -/
theorem lazy_pool_kept {s : ConnState}
    (connectRes : Except Err Unit × ConnState)
    (hconn : connectRes.2.pool.isSome = true ∨ connectRes.2 = s)
    (h : s.pool.isSome = true) :
    (if s.pool.isSome && s.connected then ((.ok (), s) : Except Err Unit × ConnState)
      else connectRes).2.pool.isSome = true := by
  split
  · exact h
  · rcases hconn with h1 | h1
    · exact h1
    · rw [h1]; exact h

/-- C8: on a connected backend connection (pool present, `connected` true), a
failing query raises a `DatabaseError` wrapping the native driver error while
the connection state is left completely unchanged (still connected, pool
untouched); moreover none of `connect`, `query`, `execute`,
`beginTransaction`, `testConnection` ever closes or clears an existing pool
handle on any variant — only `disconnect`/`disconnectAll` do. -/
theorem c8_failed_query_keeps_connection (s : ConnState) (p n : Nat)
    (em : MSSQLQueryEnv) (ey : MySQLQueryEnv) (eg : PGQueryEnv) (eb : BeginTxEnv)
    (ce : ConnectEnv) (pingOk : Bool)
    (hp : s.pool = some p) (hc : s.connected = true) :
    (em.result = .error n →
      mssqlQuery em s = (.error (.dbError
        ⟨"Query failed on database: " ++ s.name, s.name, .mssql, some n⟩), s)) ∧
    (ey.result = .error n →
      mysqlQuery ey s = (.error (.dbError
        ⟨"Query failed on database: " ++ s.name, s.name, .mysql, some n⟩), s)) ∧
    (eg.result = .error n →
      pgQuery eg s = (.error (.dbError
        ⟨"Query failed on database: " ++ s.name, s.name, .postgresql, some n⟩), s)) ∧
    (∀ s2 : ConnState, s2.pool.isSome = true →
      (mssqlQuery em s2).2.pool.isSome = true ∧
      (mysqlQuery ey s2).2.pool.isSome = true ∧
      (pgQuery eg s2).2.pool.isSome = true ∧
      (mssqlExecute em s2).2.pool.isSome = true ∧
      (mysqlExecute ey s2).2.pool.isSome = true ∧
      (pgExecute eg s2).2.pool.isSome = true ∧
      (mssqlBeginTransaction eb s2).2.pool.isSome = true ∧
      (mysqlBeginTransaction eb s2).2.pool.isSome = true ∧
      (pgBeginTransaction eb s2).2.pool.isSome = true ∧
      (mssqlTestConnection em s2).2.pool.isSome = true ∧
      (mysqlTestConnection ce pingOk s2).2.pool.isSome = true ∧
      (pgTestConnection eg s2).2.pool.isSome = true ∧
      (mssqlConnect ce s2).2.pool.isSome = true ∧
      (mysqlConnect ce s2).2.pool.isSome = true ∧
      (pgConnect ce s2).2.pool.isSome = true) := by
  have hsc : (s.pool.isSome && s.connected) = true := by
    rw [hp, hc]; rfl
  refine ⟨?_, ?_, ?_, ?_⟩
  · intro hres
    unfold mssqlQuery
    rw [if_pos hsc]
    simp [afterConnect, hres]
  · intro hres
    unfold mysqlQuery
    rw [if_pos hsc]
    simp [afterConnect, hres]
  · intro hres
    unfold pgQuery
    rw [if_pos hsc]
    simp [afterConnect, hres]
  · intro s2 h2
    have hcn : ∀ cr : Except Err Unit × ConnState,
        cr.2.pool.isSome = true ∨ cr.2 = s2 → cr.2.pool.isSome = true :=
      fun _ h1 => h1.elim id (fun e => e ▸ h2)
    refine ⟨?_, ?_, ?_, ?_, ?_, ?_, ?_, ?_, ?_, ?_, ?_, ?_, ?_, ?_, ?_⟩
    · rw [mssqlQuery_state]; exact lazy_pool_kept _ (mssqlConnect_pool_kept _ _) h2
    · rw [mysqlQuery_state]; exact lazy_pool_kept _ (mysqlConnect_pool_kept _ _) h2
    · rw [pgQuery_state]; exact lazy_pool_kept _ (pgConnect_pool_kept _ _) h2
    · rw [mssqlExecute_state]; exact lazy_pool_kept _ (mssqlConnect_pool_kept _ _) h2
    · rw [mysqlExecute_state]; exact lazy_pool_kept _ (mysqlConnect_pool_kept _ _) h2
    · rw [pgExecute_state]; exact lazy_pool_kept _ (pgConnect_pool_kept _ _) h2
    · rw [mssqlBeginTransaction_state]
      exact lazy_pool_kept _ (mssqlConnect_pool_kept _ _) h2
    · rw [mysqlBeginTransaction_state]
      exact lazy_pool_kept _ (mysqlConnect_pool_kept _ _) h2
    · rw [pgBeginTransaction_state]; exact lazy_pool_kept _ (pgConnect_pool_kept _ _) h2
    · rw [mssqlTestConnection_state]
      exact lazy_pool_kept _ (mssqlConnect_pool_kept _ _) h2
    · rw [mysqlTestConnection_state]
      exact lazy_pool_kept _ (mysqlConnect_pool_kept _ _) h2
    · rw [pgTestConnection_state]; exact lazy_pool_kept _ (pgConnect_pool_kept _ _) h2
    · exact hcn _ (mssqlConnect_pool_kept ce s2)
    · exact hcn _ (mysqlConnect_pool_kept ce s2)
    · exact hcn _ (pgConnect_pool_kept ce s2)

/-- Witness for C8: a concrete connected state and a failing native query. -/
theorem c8_witness :
    mssqlQuery ⟨⟨1, true, 0⟩, .error 7⟩ ⟨"db", some 1, true⟩ =
      (.error (.dbError ⟨"Query failed on database: db", "db", .mssql, some 7⟩),
        ⟨"db", some 1, true⟩) :=
  (c8_failed_query_keeps_connection ⟨"db", some 1, true⟩ 1 7
    ⟨⟨1, true, 0⟩, .error 7⟩ ⟨⟨1, true, 0⟩, .error 7⟩ ⟨⟨1, true, 0⟩, .error 7⟩
    ⟨⟨1, true, 0⟩, true, 0⟩ ⟨1, true, 0⟩ true rfl rfl).1 rfl

/-! ### Reachable connection states (C9) -/

/-- The invariant of C9: a connection that reports `connected` has a native
pool handle. -/
def ConnInv (s : ConnState) : Prop := s.connected = true → s.pool.isSome = true

/-- States of an `MSSQLConnection` reachable from construction through the
public operations, under every native environment. -/
inductive MSSQLReach : ConnState → Prop where
  | init (name : String) : MSSQLReach ⟨name, none, false⟩
  | connect (env : ConnectEnv) {s : ConnState} :
      MSSQLReach s → MSSQLReach (mssqlConnect env s).2
  | disconnect (env : DisconnectEnv) {s : ConnState} :
      MSSQLReach s → MSSQLReach (mssqlDisconnect env s).2
  | query (env : MSSQLQueryEnv) {s : ConnState} :
      MSSQLReach s → MSSQLReach (mssqlQuery env s).2
  | execute (env : MSSQLQueryEnv) {s : ConnState} :
      MSSQLReach s → MSSQLReach (mssqlExecute env s).2
  | beginTx (env : BeginTxEnv) {s : ConnState} :
      MSSQLReach s → MSSQLReach (mssqlBeginTransaction env s).2
  | testConn (env : MSSQLQueryEnv) {s : ConnState} :
      MSSQLReach s → MSSQLReach (mssqlTestConnection env s).2

/-- States of a `MySQLConnection` reachable from construction. -/
inductive MySQLReach : ConnState → Prop where
  | init (name : String) : MySQLReach ⟨name, none, false⟩
  | connect (env : ConnectEnv) {s : ConnState} :
      MySQLReach s → MySQLReach (mysqlConnect env s).2
  | disconnect (env : DisconnectEnv) {s : ConnState} :
      MySQLReach s → MySQLReach (mysqlDisconnect env s).2
  | query (env : MySQLQueryEnv) {s : ConnState} :
      MySQLReach s → MySQLReach (mysqlQuery env s).2
  | execute (env : MySQLQueryEnv) {s : ConnState} :
      MySQLReach s → MySQLReach (mysqlExecute env s).2
  | beginTx (env : BeginTxEnv) {s : ConnState} :
      MySQLReach s → MySQLReach (mysqlBeginTransaction env s).2
  | testConn (env : ConnectEnv) (pingOk : Bool) {s : ConnState} :
      MySQLReach s → MySQLReach (mysqlTestConnection env pingOk s).2

/-- States of a `PostgreSQLConnection` reachable from construction. -/
inductive PGReach : ConnState → Prop where
  | init (name : String) : PGReach ⟨name, none, false⟩
  | connect (env : ConnectEnv) {s : ConnState} :
      PGReach s → PGReach (pgConnect env s).2
  | disconnect (env : DisconnectEnv) {s : ConnState} :
      PGReach s → PGReach (pgDisconnect env s).2
  | query (env : PGQueryEnv) {s : ConnState} :
      PGReach s → PGReach (pgQuery env s).2
  | execute (env : PGQueryEnv) {s : ConnState} :
      PGReach s → PGReach (pgExecute env s).2
  | beginTx (env : BeginTxEnv) {s : ConnState} :
      PGReach s → PGReach (pgBeginTransaction env s).2
  | testConn (env : PGQueryEnv) {s : ConnState} :
      PGReach s → PGReach (pgTestConnection env s).2

theorem connInv_mssqlConnect (env : ConnectEnv) (s : ConnState) (h : ConnInv s) :
    ConnInv (mssqlConnect env s).2 := by
  unfold mssqlConnect
  split
  · exact h
  · split <;> intro _ <;> simp

theorem connInv_mysqlConnect (env : ConnectEnv) (s : ConnState) (h : ConnInv s) :
    ConnInv (mysqlConnect env s).2 := by
  unfold mysqlConnect
  split
  · exact h
  · split <;> intro _ <;> simp

theorem connInv_pgConnect (env : ConnectEnv) (s : ConnState) (h : ConnInv s) :
    ConnInv (pgConnect env s).2 := by
  unfold pgConnect
  split
  · exact h
  · split <;> intro _ <;> simp

theorem connInv_mssqlDisconnect (env : DisconnectEnv) (s : ConnState) (h : ConnInv s) :
    ConnInv (mssqlDisconnect env s).2 := by
  unfold mssqlDisconnect
  split
  · exact h
  · split
    · intro hc; simp at hc
    · exact h

theorem connInv_mysqlDisconnect (env : DisconnectEnv) (s : ConnState) (h : ConnInv s) :
    ConnInv (mysqlDisconnect env s).2 := by
  unfold mysqlDisconnect
  split
  · exact h
  · split
    · intro hc; simp at hc
    · exact h

theorem connInv_pgDisconnect (env : DisconnectEnv) (s : ConnState) (h : ConnInv s) :
    ConnInv (pgDisconnect env s).2 := by
  unfold pgDisconnect
  split
  · exact h
  · split
    · intro hc; simp at hc
    · exact h

theorem connInv_if (s : ConnState) (cr : Except Err Unit × ConnState) (h : ConnInv s)
    (hcr : ConnInv cr.2) :
    ConnInv (if s.pool.isSome && s.connected then ((.ok (), s) : Except Err Unit × ConnState)
      else cr).2 := by
  split
  · exact h
  · exact hcr

theorem mssqlReach_inv (s : ConnState) (h : MSSQLReach s) : ConnInv s := by
  induction h with
  | init name => intro hc; simp at hc
  | connect env h ih => exact connInv_mssqlConnect _ _ ih
  | disconnect env h ih => exact connInv_mssqlDisconnect _ _ ih
  | query env h ih =>
    rw [mssqlQuery_state]; exact connInv_if _ _ ih (connInv_mssqlConnect _ _ ih)
  | execute env h ih =>
    rw [mssqlExecute_state]; exact connInv_if _ _ ih (connInv_mssqlConnect _ _ ih)
  | beginTx env h ih =>
    rw [mssqlBeginTransaction_state]; exact connInv_if _ _ ih (connInv_mssqlConnect _ _ ih)
  | testConn env h ih =>
    rw [mssqlTestConnection_state]; exact connInv_if _ _ ih (connInv_mssqlConnect _ _ ih)

theorem mysqlReach_inv (s : ConnState) (h : MySQLReach s) : ConnInv s := by
  induction h with
  | init name => intro hc; simp at hc
  | connect env h ih => exact connInv_mysqlConnect _ _ ih
  | disconnect env h ih => exact connInv_mysqlDisconnect _ _ ih
  | query env h ih =>
    rw [mysqlQuery_state]; exact connInv_if _ _ ih (connInv_mysqlConnect _ _ ih)
  | execute env h ih =>
    rw [mysqlExecute_state]; exact connInv_if _ _ ih (connInv_mysqlConnect _ _ ih)
  | beginTx env h ih =>
    rw [mysqlBeginTransaction_state]; exact connInv_if _ _ ih (connInv_mysqlConnect _ _ ih)
  | testConn env pingOk h ih =>
    rw [mysqlTestConnection_state]; exact connInv_if _ _ ih (connInv_mysqlConnect _ _ ih)

theorem pgReach_inv (s : ConnState) (h : PGReach s) : ConnInv s := by
  induction h with
  | init name => intro hc; simp at hc
  | connect env h ih => exact connInv_pgConnect _ _ ih
  | disconnect env h ih => exact connInv_pgDisconnect _ _ ih
  | query env h ih =>
    rw [pgQuery_state]; exact connInv_if _ _ ih (connInv_pgConnect _ _ ih)
  | execute env h ih =>
    rw [pgExecute_state]; exact connInv_if _ _ ih (connInv_pgConnect _ _ ih)
  | beginTx env h ih =>
    rw [pgBeginTransaction_state]; exact connInv_if _ _ ih (connInv_pgConnect _ _ ih)
  | testConn env h ih =>
    rw [pgTestConnection_state]; exact connInv_if _ _ ih (connInv_pgConnect _ _ ih)

theorem mssqlConnect_fail_state (env : ConnectEnv) (s s' : ConnState) (e : Err)
    (hinv : ConnInv s) (heq : mssqlConnect env s = (.error e, s')) :
    s'.connected = false ∧ s'.pool.isSome = true := by
  unfold mssqlConnect at heq
  split at heq
  · simp at heq
  · next hcond =>
    split at heq
    · simp at heq
    · simp only [Prod.mk.injEq] at heq
      obtain ⟨-, rfl⟩ := heq
      refine ⟨?_, by simp⟩
      cases hcc : s.connected
      · simp [hcc]
      · exact absurd (by rw [hcc, hinv hcc]; rfl) hcond

theorem mysqlConnect_fail_state (env : ConnectEnv) (s s' : ConnState) (e : Err)
    (hinv : ConnInv s) (heq : mysqlConnect env s = (.error e, s')) :
    s'.connected = false ∧ s'.pool.isSome = true := by
  unfold mysqlConnect at heq
  split at heq
  · simp at heq
  · next hcond =>
    split at heq
    · simp at heq
    · simp only [Prod.mk.injEq] at heq
      obtain ⟨-, rfl⟩ := heq
      refine ⟨?_, by simp⟩
      cases hcc : s.connected
      · simp [hcc]
      · exact absurd (by rw [hcc, hinv hcc]; rfl) hcond

theorem pgConnect_fail_state (env : ConnectEnv) (s s' : ConnState) (e : Err)
    (hinv : ConnInv s) (heq : pgConnect env s = (.error e, s')) :
    s'.connected = false ∧ s'.pool.isSome = true := by
  unfold pgConnect at heq
  split at heq
  · simp at heq
  · next hcond =>
    split at heq
    · simp at heq
    · simp only [Prod.mk.injEq] at heq
      obtain ⟨-, rfl⟩ := heq
      refine ⟨?_, by simp⟩
      cases hcc : s.connected
      · simp [hcc]
      · exact absurd (by rw [hcc, hinv hcc]; rfl) hcond

/-- C9: in every state of every backend-connection variant reachable through
`connect`, `disconnect`, `query`, `execute`, `beginTransaction` and
`testConnection`, `connected = true` implies the native pool handle is
present; and a failed `connect` from a reachable state leaves
`connected = false` while leaving a (non-null) pool handle behind. -/
theorem c9_connected_implies_pool :
    (∀ s : ConnState, MSSQLReach s → s.connected = true → s.pool.isSome = true) ∧
    (∀ s : ConnState, MySQLReach s → s.connected = true → s.pool.isSome = true) ∧
    (∀ s : ConnState, PGReach s → s.connected = true → s.pool.isSome = true) ∧
    (∀ (env : ConnectEnv) (s s' : ConnState) (e : Err), MSSQLReach s →
      mssqlConnect env s = (.error e, s') → s'.connected = false ∧ s'.pool.isSome = true) ∧
    (∀ (env : ConnectEnv) (s s' : ConnState) (e : Err), MySQLReach s →
      mysqlConnect env s = (.error e, s') → s'.connected = false ∧ s'.pool.isSome = true) ∧
    (∀ (env : ConnectEnv) (s s' : ConnState) (e : Err), PGReach s →
      pgConnect env s = (.error e, s') → s'.connected = false ∧ s'.pool.isSome = true) :=
  ⟨fun s h => mssqlReach_inv s h,
   fun s h => mysqlReach_inv s h,
   fun s h => pgReach_inv s h,
   fun env s s' e hr heq => mssqlConnect_fail_state env s s' e (mssqlReach_inv s hr) heq,
   fun env s s' e hr heq => mysqlConnect_fail_state env s s' e (mysqlReach_inv s hr) heq,
   fun env s s' e hr heq => pgConnect_fail_state env s s' e (pgReach_inv s hr) heq⟩

/-- Witness for C9: the freshly constructed state satisfies the invariant,
and a concrete failed connect from it ends disconnected with a pool handle
left behind. -/
theorem c9_witness :
    ((⟨"db", none, false⟩ : ConnState).connected = true →
      (⟨"db", none, false⟩ : ConnState).pool.isSome = true) ∧
    ((⟨"db", some 5, false⟩ : ConnState).connected = false ∧
      (⟨"db", some 5, false⟩ : ConnState).pool.isSome = true) :=
  ⟨c9_connected_implies_pool.1 ⟨"db", none, false⟩ (.init "db"),
   c9_connected_implies_pool.2.2.2.1 ⟨5, false, 3⟩ ⟨"db", none, false⟩ ⟨"db", some 5, false⟩
     (.dbError ⟨"Failed to connect to database: db", "db", .mssql, some 3⟩)
     (.init "db") rfl⟩

/-! ### Error-shape lemmas (C4) -/

theorem managerGet_err_isDb (env : ConnectEnv) (name : String) (s : ManagerState) (e : Err)
    (h : (managerGet env name s).1 = .error e) : e.isDb = true := by
  unfold managerGet at h
  split at h
  · simp at h
  · split at h
    · simp only [Except.error.injEq] at h
      subst h; rfl
    · split at h
      · simp only [Except.error.injEq] at h
        subst h; rfl
      · split at h
        · simp at h
        · simp only [Except.error.injEq] at h
          subst h; rfl

theorem managerGetUnconnected_err_isDb (name : String) (s : ManagerState) (e : Err)
    (h : (managerGetUnconnected name s).1 = .error e) : e.isDb = true := by
  unfold managerGetUnconnected at h
  split at h
  · simp only [Except.error.injEq] at h
    subst h; rfl
  · simp at h

theorem mssqlConnect_err_isDb (env : ConnectEnv) (s : ConnState) (e : Err)
    (h : (mssqlConnect env s).1 = .error e) : e.isDb = true := by
  unfold mssqlConnect at h
  split at h
  · simp at h
  · split at h
    · simp at h
    · simp only [Except.error.injEq] at h
      subst h; rfl

theorem mysqlConnect_err_isDb (env : ConnectEnv) (s : ConnState) (e : Err)
    (h : (mysqlConnect env s).1 = .error e) : e.isDb = true := by
  unfold mysqlConnect at h
  split at h
  · simp at h
  · split at h
    · simp at h
    · simp only [Except.error.injEq] at h
      subst h; rfl

theorem pgConnect_err_isDb (env : ConnectEnv) (s : ConnState) (e : Err)
    (h : (pgConnect env s).1 = .error e) : e.isDb = true := by
  unfold pgConnect at h
  split at h
  · simp at h
  · split at h
    · simp at h
    · simp only [Except.error.injEq] at h
      subst h; rfl

theorem mssqlDisconnect_err_isDb (env : DisconnectEnv) (s : ConnState) (e : Err)
    (h : (mssqlDisconnect env s).1 = .error e) : e.isDb = true := by
  unfold mssqlDisconnect at h
  split at h
  · simp at h
  · split at h
    · simp at h
    · simp only [Except.error.injEq] at h
      subst h; rfl

theorem mysqlDisconnect_err_isDb (env : DisconnectEnv) (s : ConnState) (e : Err)
    (h : (mysqlDisconnect env s).1 = .error e) : e.isDb = true := by
  unfold mysqlDisconnect at h
  split at h
  · simp at h
  · split at h
    · simp at h
    · simp only [Except.error.injEq] at h
      subst h; rfl

theorem pgDisconnect_err_isDb (env : DisconnectEnv) (s : ConnState) (e : Err)
    (h : (pgDisconnect env s).1 = .error e) : e.isDb = true := by
  unfold pgDisconnect at h
  split at h
  · simp at h
  · split at h
    · simp at h
    · simp only [Except.error.injEq] at h
      subst h; rfl

theorem afterConnect_err_isDb {A : Type} (c : Except Err Unit × ConnState)
    (body : ConnState → Except Err A × ConnState) (e : Err)
    (hc : ∀ e1, c.1 = .error e1 → e1.isDb = true)
    (hb : ∀ s1 e1, (body s1).1 = .error e1 → e1.isDb = true)
    (h : (afterConnect c body).1 = .error e) : e.isDb = true := by
  unfold afterConnect at h
  split at h
  · next e1 heq =>
    simp only [Except.error.injEq] at h
    subst h
    exact hc _ heq
  · exact hb _ _ h

theorem if_shortcut_err_isDb (s : ConnState) (cr : Except Err Unit × ConnState)
    (hcr : ∀ e1, cr.1 = .error e1 → e1.isDb = true) (e1 : Err)
    (heq : (if s.pool.isSome && s.connected then ((.ok (), s) : Except Err Unit × ConnState)
      else cr).1 = .error e1) : e1.isDb = true := by
  split at heq
  · simp at heq
  · exact hcr _ heq

theorem mssqlQuery_err_isDb (env : MSSQLQueryEnv) (s : ConnState) (e : Err)
    (h : (mssqlQuery env s).1 = .error e) : e.isDb = true := by
  unfold mssqlQuery at h
  refine afterConnect_err_isDb _ _ _
    (fun e1 heq => if_shortcut_err_isDb s _ (mssqlConnect_err_isDb env.conn s) e1 heq)
    (fun s1 e1 h1 => ?_) h
  cases hr : env.result with
  | ok r => rw [hr] at h1; simp at h1
  | error n =>
    rw [hr] at h1
    simp only [Except.error.injEq] at h1
    subst h1; rfl

theorem mysqlQuery_err_isDb (env : MySQLQueryEnv) (s : ConnState) (e : Err)
    (h : (mysqlQuery env s).1 = .error e) : e.isDb = true := by
  unfold mysqlQuery at h
  refine afterConnect_err_isDb _ _ _
    (fun e1 heq => if_shortcut_err_isDb s _ (mysqlConnect_err_isDb env.conn s) e1 heq)
    (fun s1 e1 h1 => ?_) h
  cases hr : env.result with
  | ok r => rw [hr] at h1; simp at h1
  | error n =>
    rw [hr] at h1
    simp only [Except.error.injEq] at h1
    subst h1; rfl

theorem pgQuery_err_isDb (env : PGQueryEnv) (s : ConnState) (e : Err)
    (h : (pgQuery env s).1 = .error e) : e.isDb = true := by
  unfold pgQuery at h
  refine afterConnect_err_isDb _ _ _
    (fun e1 heq => if_shortcut_err_isDb s _ (pgConnect_err_isDb env.conn s) e1 heq)
    (fun s1 e1 h1 => ?_) h
  cases hr : env.result with
  | ok r => rw [hr] at h1; simp at h1
  | error n =>
    rw [hr] at h1
    simp only [Except.error.injEq] at h1
    subst h1; rfl

theorem mssqlExecute_err_isDb (env : MSSQLQueryEnv) (s : ConnState) (e : Err)
    (h : (mssqlExecute env s).1 = .error e) : e.isDb = true := by
  unfold mssqlExecute at h
  refine afterConnect_err_isDb _ _ _
    (fun e1 heq => if_shortcut_err_isDb s _ (mssqlConnect_err_isDb env.conn s) e1 heq)
    (fun s1 e1 h1 => ?_) h
  cases hr : env.result with
  | ok r => rw [hr] at h1; simp at h1
  | error n =>
    rw [hr] at h1
    simp only [Except.error.injEq] at h1
    subst h1; rfl

theorem mysqlExecute_err_isDb (env : MySQLQueryEnv) (s : ConnState) (e : Err)
    (h : (mysqlExecute env s).1 = .error e) : e.isDb = true := by
  unfold mysqlExecute at h
  refine afterConnect_err_isDb _ _ _
    (fun e1 heq => if_shortcut_err_isDb s _ (mysqlConnect_err_isDb env.conn s) e1 heq)
    (fun s1 e1 h1 => ?_) h
  cases hr : env.result with
  | ok r => rw [hr] at h1; simp at h1
  | error n =>
    rw [hr] at h1
    simp only [Except.error.injEq] at h1
    subst h1; rfl

theorem pgExecute_err_isDb (env : PGQueryEnv) (s : ConnState) (e : Err)
    (h : (pgExecute env s).1 = .error e) : e.isDb = true := by
  unfold pgExecute at h
  refine afterConnect_err_isDb _ _ _
    (fun e1 heq => if_shortcut_err_isDb s _ (pgConnect_err_isDb env.conn s) e1 heq)
    (fun s1 e1 h1 => ?_) h
  cases hr : env.result with
  | ok r => rw [hr] at h1; simp at h1
  | error n =>
    rw [hr] at h1
    simp only [Except.error.injEq] at h1
    subst h1; rfl

/-- C4 counterexample: the claim "every fallible operation fails with a
`DatabaseError` carrying one of the five kinds" is false on the code: a
transaction `commit` whose native commit throws propagates the native driver
error unwrapped (not a `DatabaseError` at all — and `DatabaseError` itself
carries no machine-readable kind field for callers to branch on). -/
theorem c4_counterexample :
    (mysqlTxCommit (some 7) ⟨"absentee", false⟩).1 = .error (.native 7) ∧
    Err.isDb (.native 7) = false := by
  exact ⟨rfl, rfl⟩

/-- C4 (amended): the registry operations (`get`, `getUnconnected`) and the
connections' `connect`, `disconnect`, `query` and `execute` fail only with
`DatabaseError` values (carrying database name, backend type, message and
optional native cause — though no machine-readable kind field: the five kinds
exist only as message conventions); transaction operations are the
exception: `beginTransaction`'s session acquisition, the MSSQL transaction's
`query`, and `commit`/`rollback` on all three variants propagate native
driver errors unwrapped, while the MySQL and PostgreSQL transaction `query`
do rewrap as `DatabaseError`. -/
theorem c4_error_contract_amended :
    (∀ (env : ConnectEnv) (name : String) (s : ManagerState) (e : Err),
      (managerGet env name s).1 = .error e → e.isDb = true) ∧
    (∀ (name : String) (s : ManagerState) (e : Err),
      (managerGetUnconnected name s).1 = .error e → e.isDb = true) ∧
    (∀ (env : ConnectEnv) (s : ConnState) (e : Err),
      (mssqlConnect env s).1 = .error e → e.isDb = true) ∧
    (∀ (env : ConnectEnv) (s : ConnState) (e : Err),
      (mysqlConnect env s).1 = .error e → e.isDb = true) ∧
    (∀ (env : ConnectEnv) (s : ConnState) (e : Err),
      (pgConnect env s).1 = .error e → e.isDb = true) ∧
    (∀ (env : DisconnectEnv) (s : ConnState) (e : Err),
      (mssqlDisconnect env s).1 = .error e → e.isDb = true) ∧
    (∀ (env : DisconnectEnv) (s : ConnState) (e : Err),
      (mysqlDisconnect env s).1 = .error e → e.isDb = true) ∧
    (∀ (env : DisconnectEnv) (s : ConnState) (e : Err),
      (pgDisconnect env s).1 = .error e → e.isDb = true) ∧
    (∀ (env : MSSQLQueryEnv) (s : ConnState) (e : Err),
      (mssqlQuery env s).1 = .error e → e.isDb = true) ∧
    (∀ (env : MySQLQueryEnv) (s : ConnState) (e : Err),
      (mysqlQuery env s).1 = .error e → e.isDb = true) ∧
    (∀ (env : PGQueryEnv) (s : ConnState) (e : Err),
      (pgQuery env s).1 = .error e → e.isDb = true) ∧
    (∀ (env : MSSQLQueryEnv) (s : ConnState) (e : Err),
      (mssqlExecute env s).1 = .error e → e.isDb = true) ∧
    (∀ (env : MySQLQueryEnv) (s : ConnState) (e : Err),
      (mysqlExecute env s).1 = .error e → e.isDb = true) ∧
    (∀ (env : PGQueryEnv) (s : ConnState) (e : Err),
      (pgExecute env s).1 = .error e → e.isDb = true) ∧
    (∀ (n : Nat) (t : TxState), (mysqlTxQuery (.error n) t).1 =
      .error (.dbError
        ⟨"Transaction query failed on database: " ++ t.name, t.name, .mysql, some n⟩)) ∧
    (∀ (n : Nat) (t : TxState), (pgTxQuery (.error n) t).1 =
      .error (.dbError
        ⟨"Transaction query failed on database: " ++ t.name, t.name, .postgresql, some n⟩)) ∧
    (∀ (n : Nat) (t : TxState), (mssqlTxQuery (.error n) t).1 = .error (.native n)) ∧
    (∀ (n : Nat) (t : TxState), (mysqlTxCommit (some n) t).1 = .error (.native n)) ∧
    (∀ (n : Nat) (t : TxState), (mysqlTxRollback (some n) t).1 = .error (.native n)) ∧
    (∀ (n : Nat) (t : TxState), (pgTxCommit (some n) t).1 = .error (.native n)) ∧
    (∀ (n : Nat) (t : TxState), (pgTxRollback (some n) t).1 = .error (.native n)) ∧
    (∀ (n : Nat) (t : TxState), (mssqlTxCommit (some n) t).1 = .error (.native n)) ∧
    (∀ (n : Nat) (t : TxState), (mssqlTxRollback (some n) t).1 = .error (.native n)) ∧
    (∀ (env : BeginTxEnv) (s : ConnState), s.pool.isSome = true → s.connected = true →
      env.beginOk = false → (mssqlBeginTransaction env s).1 = .error (.native env.errCode)) ∧
    (∀ (env : BeginTxEnv) (s : ConnState), s.pool.isSome = true → s.connected = true →
      env.beginOk = false → (mysqlBeginTransaction env s).1 = .error (.native env.errCode)) ∧
    (∀ (env : BeginTxEnv) (s : ConnState), s.pool.isSome = true → s.connected = true →
      env.beginOk = false → (pgBeginTransaction env s).1 = .error (.native env.errCode)) := by
  refine ⟨managerGet_err_isDb, managerGetUnconnected_err_isDb, mssqlConnect_err_isDb,
    mysqlConnect_err_isDb, pgConnect_err_isDb, mssqlDisconnect_err_isDb,
    mysqlDisconnect_err_isDb, pgDisconnect_err_isDb, mssqlQuery_err_isDb,
    mysqlQuery_err_isDb, pgQuery_err_isDb, mssqlExecute_err_isDb, mysqlExecute_err_isDb,
    pgExecute_err_isDb, fun n t => rfl, fun n t => rfl, fun n t => rfl, fun n t => rfl,
    fun n t => rfl, fun n t => rfl, fun n t => rfl, fun n t => rfl, fun n t => rfl,
    ?_, ?_, ?_⟩ <;>
  · intro env s h1 h2 h3
    have hsc : (s.pool.isSome && s.connected) = true := by rw [h1, h2]; rfl
    first
      | unfold mssqlBeginTransaction
      | unfold mysqlBeginTransaction
      | unfold pgBeginTransaction
    rw [if_pos hsc]
    simp [afterConnect, h3]

/-- Witness for C4 (amended): a concrete not-configured failure carries a
`DatabaseError`. -/
theorem c4_witness :
    Err.isDb (.dbError
      ⟨"No configuration found for database: nope", "nope", .mssql, none⟩) = true :=
  c4_error_contract_amended.1 ⟨1, true, 0⟩ "nope" ManagerState.empty
    (.dbError ⟨"No configuration found for database: nope", "nope", .mssql, none⟩) rfl

/-! ### ParameterTranslator correctness (C2)

The keys of a named-parameter mapping are SQL identifiers: nonempty strings
of word characters.  The proofs below are parametric in the replacement
scheme, covering both the MySQL (`?`) and the PostgreSQL (`$n`) translator. -/

/-- A well-formed parameter name: nonempty and made of word characters (the
regex ``:key\b`` is built by splicing the name into a regex, so this is also
what keeps the splice literal). -/
def WordKey (k : List Char) : Prop := k ≠ [] ∧ ∀ c ∈ k, isWordChar c = true

instance (k : List Char) : Decidable (WordKey k) := by
  unfold WordKey; infer_instance

/-- A replacement scheme that cannot create or destroy placeholder matches:
every replacement text is nonempty, starts with a non-word character, and
contains no colon.  Both `?` and `$n` satisfy this. -/
def RepOk (rep : Nat → List Char) : Prop :=
  ∀ j, ∃ c cs, rep j = c :: cs ∧ isWordChar c = false ∧ ':' ∉ rep j

theorem repOk_mysqlRep : RepOk mysqlRep :=
  fun _ => ⟨'?', [], rfl, by decide, by simp [mysqlRep]⟩

theorem digitChar_ne_colon (n : Nat) : digitChar n ≠ ':' := by
  unfold digitChar
  split <;> decide

theorem colon_not_mem_natDigits (n : Nat) : ':' ∉ natDigits n := by
  induction n using Nat.strong_induction_on with
  | _ n ih =>
    rw [natDigits]
    split
    · intro hmem
      simp only [List.mem_singleton] at hmem
      exact digitChar_ne_colon n hmem.symm
    · intro hmem
      rcases List.mem_append.1 hmem with h1 | h1
      · exact ih (n / 10) (Nat.div_lt_self (by omega) (by omega)) h1
      · simp only [List.mem_singleton] at h1
        exact digitChar_ne_colon (n % 10) h1.symm

theorem repOk_pgRep : RepOk pgRep := by
  intro j
  refine ⟨'$', natDigits j, rfl, by decide, ?_⟩
  intro hmem
  rcases List.mem_cons.1 hmem with h1 | h1
  · exact absurd h1 (by decide)
  · exact colon_not_mem_natDigits j h1

theorem wordKey_not_colon {k : List Char} (hk : WordKey k) : ':' ∉ k := by
  intro hmem
  have := hk.2 ':' hmem
  simp [isWordChar] at this

theorem getLastD_mem_of_ne_nil : ∀ (l : List Char), l ≠ [] → ∀ d, l.getLastD d ∈ l := by
  intro l
  induction l with
  | nil => intro h; exact absurd rfl h
  | cons a t ih =>
    intro _ d
    cases t with
    | nil => simp [List.getLastD]
    | cons b u =>
      have h2 : (a :: b :: u).getLastD d = (b :: u).getLastD a := by simp [List.getLastD]
      rw [h2]
      exact List.mem_cons_of_mem a (ih (by simp) a)

theorem wordKey_last {k : List Char} (hk : WordKey k) : isWordChar (k.getLastD ':') = true :=
  hk.2 _ (getLastD_mem_of_ne_nil k hk.1 ':')

/-! #### Unfolding lemmas for the scan -/

theorem scanReplace_nil (key : List Char) (rep : Nat → List Char) (i : Nat) :
    scanReplace key rep i [] = ([], 0) := by
  rw [scanReplace]

theorem scanReplace_cons_match (key : List Char) (rep : Nat → List Char) (i : Nat)
    (c : Char) (rest : List Char) (h : matchAt key (c :: rest) = true) :
    scanReplace key rep i (c :: rest) =
      (rep i ++ (scanReplace key rep (i + 1) (rest.drop key.length)).1,
        (scanReplace key rep (i + 1) (rest.drop key.length)).2 + 1) := by
  rw [scanReplace]
  simp [h]

theorem scanReplace_cons_nomatch (key : List Char) (rep : Nat → List Char) (i : Nat)
    (c : Char) (rest : List Char) (h : matchAt key (c :: rest) = false) :
    scanReplace key rep i (c :: rest) =
      (c :: (scanReplace key rep i rest).1, (scanReplace key rep i rest).2) := by
  rw [scanReplace]
  simp [h]

theorem countMatches_nil (key : List Char) : countMatches key [] = 0 := by
  rw [countMatches]

theorem countMatches_cons_match (key : List Char) (c : Char) (rest : List Char)
    (h : matchAt key (c :: rest) = true) :
    countMatches key (c :: rest) = countMatches key (rest.drop key.length) + 1 := by
  rw [countMatches]
  simp [h]

theorem countMatches_cons_nomatch (key : List Char) (c : Char) (rest : List Char)
    (h : matchAt key (c :: rest) = false) :
    countMatches key (c :: rest) = countMatches key rest := by
  rw [countMatches]
  simp [h]

/-! #### Characterizing a match -/

theorem matchAt_colon {key : List Char} {c : Char} {rest : List Char}
    (h : matchAt key (c :: rest) = true) : c = ':' := by
  unfold matchAt at h
  simp only [Bool.and_eq_true, beq_iff_eq] at h
  exact h.1.1

theorem matchAt_eq_false_of_ne_colon (key : List Char) (c : Char) (rest : List Char)
    (hc : c ≠ ':') : matchAt key (c :: rest) = false := by
  cases hm : matchAt key (c :: rest)
  · rfl
  · exact absurd (matchAt_colon hm) hc

theorem matchAt_iff (key : List Char) (c : Char) (rest : List Char) :
    matchAt key (c :: rest) = true ↔
      c = ':' ∧ key <+: rest ∧ boundaryOk (key.getLastD ':') (rest.drop key.length) = true := by
  unfold matchAt
  simp only [Bool.and_eq_true, beq_iff_eq, List.isPrefixOf_iff_prefix, and_assoc]

theorem matchAt_of_parts (key : List Char) (tail : List Char)
    (hb : boundaryOk (key.getLastD ':') tail = true) :
    matchAt key (':' :: (key ++ tail)) = true := by
  rw [matchAt_iff]
  exact ⟨rfl, ⟨tail, rfl⟩, by rw [List.drop_left]; exact hb⟩

/-! #### Colon-free segments neither contain nor affect matches -/

theorem countMatches_append_nocolon (k : List Char) :
    ∀ (x y : List Char), ':' ∉ x → countMatches k (x ++ y) = countMatches k y := by
  intro x
  induction x with
  | nil => intro y _; rfl
  | cons c t ih =>
    intro y hx
    have hc : c ≠ ':' := fun h => hx (h ▸ List.mem_cons_self c t)
    rw [List.cons_append,
      countMatches_cons_nomatch _ _ _ (matchAt_eq_false_of_ne_colon _ _ _ hc)]
    exact ih y (fun h => hx (List.mem_cons_of_mem _ h))

theorem scanReplace_append_nocolon (k : List Char) (rep : Nat → List Char) :
    ∀ (x y : List Char) (i : Nat), ':' ∉ x →
      scanReplace k rep i (x ++ y) =
        (x ++ (scanReplace k rep i y).1, (scanReplace k rep i y).2) := by
  intro x
  induction x with
  | nil => intro y i _; simp
  | cons c t ih =>
    intro y i hx
    have hc : c ≠ ':' := fun h => hx (h ▸ List.mem_cons_self c t)
    rw [List.cons_append,
      scanReplace_cons_nomatch _ _ _ _ _ (matchAt_eq_false_of_ne_colon _ _ _ hc),
      ih y i (fun h => hx (List.mem_cons_of_mem _ h))]
    rfl

theorem scanReplace_count (key : List Char) (rep : Nat → List Char) :
    ∀ (n : Nat) (s : List Char), s.length ≤ n → ∀ i,
      (scanReplace key rep i s).2 = countMatches key s := by
  intro n
  induction n with
  | zero =>
    intro s hs i
    have h0 : s = [] := List.eq_nil_of_length_eq_zero (Nat.le_zero.1 hs)
    subst h0
    simp [scanReplace_nil, countMatches_nil]
  | succ n ih =>
    intro s hs i
    cases s with
    | nil => simp [scanReplace_nil, countMatches_nil]
    | cons c rest =>
      by_cases hm : matchAt key (c :: rest) = true
      · rw [scanReplace_cons_match _ _ _ _ _ hm, countMatches_cons_match _ _ _ hm]
        have hlen : (rest.drop key.length).length ≤ n := by
          simp only [List.length_drop]
          simp only [List.length_cons] at hs
          omega
        simp only [ih _ hlen]
      · have hm2 : matchAt key (c :: rest) = false := by
          cases h2 : matchAt key (c :: rest)
          · rfl
          · exact absurd h2 hm
        rw [scanReplace_cons_nomatch _ _ _ _ _ hm2, countMatches_cons_nomatch _ _ _ hm2]
        exact ih rest (by simp only [List.length_cons] at hs; omega) i

/-- The number of replacements performed by the scan is the match count. -/
theorem scanReplace_snd (key : List Char) (rep : Nat → List Char) (s : List Char) (i : Nat) :
    (scanReplace key rep i s).2 = countMatches key s :=
  scanReplace_count key rep s.length s le_rfl i

/-- The scan output is empty only for empty input, and its head has the same
word-ness as the input's head (replacements start with a non-word character,
exactly like the `:` they replace). -/
theorem scanReplace_head_cons (k : List Char) (rep : Nat → List Char) (i : Nat)
    (a : Char) (s2 : List Char) (hrep : RepOk rep) :
    ∃ w t2, (scanReplace k rep i (a :: s2)).1 = w :: t2 ∧ isWordChar w = isWordChar a := by
  by_cases hm : matchAt k (a :: s2) = true
  · rw [scanReplace_cons_match _ _ _ _ _ hm]
    obtain ⟨w, ws, hw, hwword, -⟩ := hrep i
    rw [hw]
    refine ⟨w, _, rfl, ?_⟩
    rw [hwword, matchAt_colon hm]
    decide
  · have hm2 : matchAt k (a :: s2) = false := by
      cases h2 : matchAt k (a :: s2)
      · rfl
      · exact absurd h2 hm
    rw [scanReplace_cons_nomatch _ _ _ _ _ hm2]
    exact ⟨a, _, rfl, rfl⟩

/-- A word-only string is a prefix of the scan's output only if it was a
prefix of the input (replacements start with non-word characters, so they
cannot help build one). -/
theorem scanReplace_prefix_reflect (k' : List Char) (rep : Nat → List Char)
    (hrep : RepOk rep) :
    ∀ (n : Nat) (s : List Char), s.length ≤ n → ∀ (i : Nat) (m : List Char),
      (∀ c ∈ m, isWordChar c = true) → m <+: (scanReplace k' rep i s).1 → m <+: s := by
  intro n
  induction n with
  | zero =>
    intro s hs i m _ hpre
    have h0 : s = [] := List.eq_nil_of_length_eq_zero (Nat.le_zero.1 hs)
    subst h0
    rw [scanReplace_nil] at hpre
    exact hpre
  | succ n ih =>
    intro s hs i m hword hpre
    cases s with
    | nil =>
      rw [scanReplace_nil] at hpre
      exact hpre
    | cons c rest =>
      cases m with
      | nil => exact ⟨c :: rest, rfl⟩
      | cons m0 m1 =>
        by_cases hm : matchAt k' (c :: rest) = true
        · exfalso
          rw [scanReplace_cons_match _ _ _ _ _ hm] at hpre
          obtain ⟨w, ws, hw, hwword, -⟩ := hrep i
          rw [hw] at hpre
          obtain ⟨t, ht⟩ := hpre
          simp only [List.cons_append, List.cons.injEq] at ht
          have : isWordChar m0 = true := hword m0 (List.mem_cons_self _ _)
          rw [← ht.1] at hwword
          rw [this] at hwword
          exact absurd hwword (by decide)
        · have hm2 : matchAt k' (c :: rest) = false := by
            cases h2 : matchAt k' (c :: rest)
            · rfl
            · exact absurd h2 hm
          rw [scanReplace_cons_nomatch _ _ _ _ _ hm2] at hpre
          obtain ⟨t, ht⟩ := hpre
          simp only [List.cons_append, List.cons.injEq] at ht
          have h1 : m1 <+: (scanReplace k' rep i rest).1 := ⟨t, ht.2⟩
          have h2 : m1 <+: rest :=
            ih rest (by simp only [List.length_cons] at hs; omega) i m1
              (fun c hc => hword c (List.mem_cons_of_mem _ hc)) h1
          obtain ⟨u, hu⟩ := h2
          exact ⟨u, by rw [List.cons_append, ht.1, hu]⟩

/-! #### Two word keys cannot match at the same position -/

theorem matchAt_unique_aux {k k2 rest : List Char} (hk : WordKey k) (hk2 : WordKey k2)
    (hp1 : k <+: rest) (hb1 : boundaryOk (k.getLastD ':') (rest.drop k.length) = true)
    (hp2 : k2 <+: rest) (hlen : k.length ≤ k2.length) : k = k2 := by
  have hpre : k <+: k2 := List.prefix_of_prefix_length_le hp1 hp2 hlen
  rcases Nat.lt_or_ge k.length k2.length with hlt | hge
  · exfalso
    obtain ⟨t, ht⟩ := hpre
    cases t with
    | nil =>
      rw [List.append_nil] at ht
      rw [ht] at hlt
      omega
    | cons d u =>
      have hd : isWordChar d = true :=
        hk2.2 d (by rw [← ht]; exact List.mem_append_right k (List.mem_cons_self d u))
      obtain ⟨r2, hr2⟩ := hp2
      have hrest : rest = k ++ (d :: u ++ r2) := by
        rw [← hr2, ← ht]
        simp
      rw [hrest, List.drop_left] at hb1
      unfold boundaryOk at hb1
      rw [wordKey_last hk] at hb1
      rw [List.cons_append] at hb1
      simp [hd] at hb1
  · exact List.IsPrefix.eq_of_length hpre (Nat.le_antisymm hlen hge)

theorem matchAt_unique {k k2 s : List Char} (hk : WordKey k) (hk2 : WordKey k2)
    (h1 : matchAt k s = true) (h2 : matchAt k2 s = true) : k = k2 := by
  cases s with
  | nil => simp [matchAt] at h1
  | cons c rest =>
    obtain ⟨-, hp1, hb1⟩ := (matchAt_iff k c rest).1 h1
    obtain ⟨-, hp2, hb2⟩ := (matchAt_iff k2 c rest).1 h2
    rcases Nat.le_total k.length k2.length with hle | hle
    · exact matchAt_unique_aux hk hk2 hp1 hb1 hp2 hle
    · exact (matchAt_unique_aux hk2 hk hp2 hb2 hp1 hle).symm

/-- The boundary test after a candidate match sees the same word-ness on the
scan's output as on its input. -/
theorem boundary_scan_eq (x : Char) (k' : List Char) (rep : Nat → List Char)
    (hrep : RepOk rep) (i : Nat) (tail : List Char) :
    boundaryOk x (scanReplace k' rep i tail).1 = boundaryOk x tail := by
  cases tail with
  | nil => rw [scanReplace_nil]
  | cons d t2 =>
    obtain ⟨w, t3, hw, hww⟩ := scanReplace_head_cons k' rep i d t2 hrep
    rw [hw]
    dsimp only [boundaryOk]
    rw [hww]

/-- Replacing one key's occurrences neither creates nor destroys occurrences
of any other word key: the match count of `k` is invariant under a scan for a
different key `k'`. -/
theorem countMatches_scan_preserved (k k' : List Char) (rep : Nat → List Char)
    (hk : WordKey k) (hk' : WordKey k') (hne : k ≠ k') (hrep : RepOk rep) :
    ∀ (n : Nat) (s : List Char), s.length ≤ n → ∀ i,
      countMatches k (scanReplace k' rep i s).1 = countMatches k s := by
  intro n
  induction n with
  | zero =>
    intro s hs i
    have h0 : s = [] := List.eq_nil_of_length_eq_zero (Nat.le_zero.1 hs)
    subst h0
    rw [scanReplace_nil]
  | succ n ih =>
    intro s hs i
    cases s with
    | nil => rw [scanReplace_nil]
    | cons c rest =>
      by_cases hm : matchAt k' (c :: rest) = true
      · rw [scanReplace_cons_match _ _ _ _ _ hm]
        obtain ⟨w, ws, hw, hwword, hwnocolon⟩ := hrep i
        rw [countMatches_append_nocolon k (rep i) _ hwnocolon]
        have hnomatch : matchAt k (c :: rest) = false := by
          cases h2 : matchAt k (c :: rest)
          · rfl
          · exact absurd (matchAt_unique hk hk' h2 hm) hne
        rw [countMatches_cons_nomatch _ _ _ hnomatch]
        obtain ⟨-, hp, -⟩ := (matchAt_iff k' c rest).1 hm
        obtain ⟨after0, hafter⟩ := hp
        have hdrop : rest.drop k'.length = after0 := by rw [← hafter, List.drop_left]
        rw [hdrop]
        have hlen0 : after0.length ≤ n := by
          have : rest.length = k'.length + after0.length := by
            rw [← hafter, List.length_append]
          simp only [List.length_cons] at hs
          omega
        rw [ih after0 hlen0 (i + 1), ← hafter,
          countMatches_append_nocolon k k' after0 (wordKey_not_colon hk')]
      · have hm2 : matchAt k' (c :: rest) = false := by
          cases h2 : matchAt k' (c :: rest)
          · rfl
          · exact absurd h2 hm
        rw [scanReplace_cons_nomatch _ _ _ _ _ hm2]
        have hrestlen : rest.length ≤ n := by
          simp only [List.length_cons] at hs
          omega
        by_cases hck : matchAt k (c :: rest) = true
        · have hc : c = ':' := matchAt_colon hck
          obtain ⟨-, hp, hb⟩ := (matchAt_iff k c rest).1 hck
          obtain ⟨tail, htail⟩ := hp
          subst htail
          rw [hc] at hck ⊢
          rw [scanReplace_append_nocolon k' rep k tail i (wordKey_not_colon hk)]
          have hb2 : boundaryOk (k.getLastD ':') (scanReplace k' rep i tail).1 = true := by
            rw [boundary_scan_eq _ _ _ hrep]
            rw [List.drop_left] at hb
            exact hb
          rw [countMatches_cons_match _ _ _ (matchAt_of_parts k _ hb2),
            countMatches_cons_match _ _ _ hck, List.drop_left, List.drop_left]
          have hlen1 : tail.length ≤ n := by
            simp only [List.length_cons, List.length_append] at hs
            omega
          rw [ih tail hlen1 i]
        · have hck2 : matchAt k (c :: rest) = false := by
            cases h2 : matchAt k (c :: rest)
            · rfl
            · exact absurd h2 hck
          rw [countMatches_cons_nomatch _ _ _ hck2]
          have hmo : matchAt k (c :: (scanReplace k' rep i rest).1) = false := by
            cases hmo0 : matchAt k (c :: (scanReplace k' rep i rest).1)
            · rfl
            · exfalso
              have hc : c = ':' := matchAt_colon hmo0
              obtain ⟨-, hp0, hb0⟩ :=
                (matchAt_iff k c (scanReplace k' rep i rest).1).1 hmo0
              have hpr : k <+: rest :=
                scanReplace_prefix_reflect k' rep hrep rest.length rest le_rfl i k hk.2 hp0
              obtain ⟨tail, htail⟩ := hpr
              subst htail
              have hbfail : boundaryOk (k.getLastD ':') tail ≠ true := by
                intro hbt
                have hmm : matchAt k (c :: (k ++ tail)) = true := by
                  rw [hc]
                  exact matchAt_of_parts k tail hbt
                rw [hmm] at hck2
                cases hck2
              rw [scanReplace_append_nocolon k' rep k tail i (wordKey_not_colon hk),
                List.drop_left] at hb0
              rw [boundary_scan_eq _ _ _ hrep] at hb0
              exact hbfail hb0
          rw [countMatches_cons_nomatch _ _ _ hmo]
          exact ih rest hrestlen i

theorem flatMap_replicate_congr {V : Type} (f g : (List Char × V) → Nat) :
    ∀ (l : List (List Char × V)), (∀ kv ∈ l, f kv = g kv) →
      l.flatMap (fun kv => List.replicate (f kv) kv.2) =
        l.flatMap (fun kv => List.replicate (g kv) kv.2) := by
  intro l
  induction l with
  | nil => intro _; rfl
  | cons kv rest ih =>
    intro h
    simp only [List.flatMap_cons]
    rw [h kv (List.mem_cons_self _ _), ih (fun kv2 h2 => h kv2 (List.mem_cons_of_mem _ h2))]

/-- The values produced by the translator loop: each processed key appends
its value once per occurrence of its placeholder in the template the loop
started from (keys distinct, word-only). -/
theorem convertLoop_values {V : Type} (rep : Nat → List Char) (hrep : RepOk rep) :
    ∀ (ps : List (List Char × V)) (sql : List Char) (i : Nat) (vals : List V),
      (∀ kv ∈ ps, WordKey kv.1) → (ps.map Prod.fst).Nodup →
      (convertLoop rep i sql vals ps).2 =
        vals ++ ps.flatMap (fun kv => List.replicate (countMatches kv.1 sql) kv.2) := by
  intro ps
  induction ps with
  | nil =>
    intro sql i vals _ _
    simp [convertLoop]
  | cons kv rest ih =>
    intro sql i vals hw hnd
    obtain ⟨key, v⟩ := kv
    simp only [List.map_cons, List.nodup_cons] at hnd
    have hkey : WordKey key := hw (key, v) (List.mem_cons_self _ _)
    have hw2 : ∀ kv2 ∈ rest, WordKey kv2.1 :=
      fun kv2 h2 => hw kv2 (List.mem_cons_of_mem _ h2)
    simp only [convertLoop]
    rw [ih _ _ _ hw2 hnd.2]
    rw [scanReplace_snd key rep sql i]
    have hpres : ∀ kv2 ∈ rest,
        countMatches kv2.1 (scanReplace key rep i sql).1 = countMatches kv2.1 sql := by
      intro kv2 h2
      have hne : kv2.1 ≠ key := by
        intro heq
        exact hnd.1 (heq ▸ List.mem_map_of_mem Prod.fst h2)
      exact countMatches_scan_preserved kv2.1 key rep (hw2 kv2 h2) hkey hne hrep
        sql.length sql le_rfl i
    rw [flatMap_replicate_congr _ _ rest hpres]
    simp [List.flatMap_cons, List.append_assoc]

/-- C2: for every SQL template and every name-to-value mapping with distinct
identifier names, both translators (`?`-positional for MySQL,
`$n`-positional for PostgreSQL) produce exactly, for each parameter name in
longest-first order, its value repeated once per occurrence of its
placeholder in the original template — so names that are prefixes of other
names never cross-substitute (each name's contribution is counted on the
untouched template, independent of the other substitutions), and mapping
entries whose names never occur contribute no value and cause no error. -/
theorem c2_convert_once_per_occurrence {V : Type} (sql : List Char)
    (params : List (List Char × V))
    (hw : ∀ kv ∈ params, WordKey kv.1)
    (hnd : (params.map Prod.fst).Nodup) :
    (mysqlConvertNamedParams sql params).2 =
      (sortKeysByLenDesc params).flatMap
        (fun kv => List.replicate (countMatches kv.1 sql) kv.2) ∧
    (pgConvertNamedParams sql params).2 =
      (sortKeysByLenDesc params).flatMap
        (fun kv => List.replicate (countMatches kv.1 sql) kv.2) := by
  have hperm : (sortKeysByLenDesc params).Perm params := List.mergeSort_perm params _
  have hw2 : ∀ kv ∈ sortKeysByLenDesc params, WordKey kv.1 :=
    fun kv h => hw kv (hperm.mem_iff.1 h)
  have hnd2 : ((sortKeysByLenDesc params).map Prod.fst).Nodup :=
    ((hperm.map Prod.fst).nodup_iff).2 hnd
  constructor
  · unfold mysqlConvertNamedParams
    rw [convertLoop_values mysqlRep repOk_mysqlRep _ _ _ _ hw2 hnd2]
    simp
  · unfold pgConvertNamedParams
    rw [convertLoop_values pgRep repOk_pgRep _ _ _ _ hw2 hnd2]
    simp

/-- Witness for C2: the spec's own `:id` / `:identifier` example, with `:id`
occurring twice, plus a dead `:unused` entry. -/
theorem c2_witness :
    (mysqlConvertNamedParams
        "select * from t where a = :id and b = :identifier and c = :id".toList
        [("id".toList, (1 : Nat)), ("identifier".toList, 2), ("unused".toList, 3)]).2 =
      (sortKeysByLenDesc
          [("id".toList, (1 : Nat)), ("identifier".toList, 2), ("unused".toList, 3)]).flatMap
        (fun kv => List.replicate
          (countMatches kv.1
            "select * from t where a = :id and b = :identifier and c = :id".toList) kv.2) ∧
    (pgConvertNamedParams
        "select * from t where a = :id and b = :identifier and c = :id".toList
        [("id".toList, (1 : Nat)), ("identifier".toList, 2), ("unused".toList, 3)]).2 =
      (sortKeysByLenDesc
          [("id".toList, (1 : Nat)), ("identifier".toList, 2), ("unused".toList, 3)]).flatMap
        (fun kv => List.replicate
          (countMatches kv.1
            "select * from t where a = :id and b = :identifier and c = :id".toList) kv.2) :=
  c2_convert_once_per_occurrence _ _ (by decide) (by decide)
